import Mathlib

/-!
# Nested Wayland view backend (`src/nc/view-backend-wayland.cpp`)

A shallow embedding of the `NC::Wayland` view backend: shared-memory buffer
allocation and `get_info`, Surface construction, destruction and its configure /
frame-callback handlers, the Popup object, and the create handlers of the DRM
proxy.

Conventions of the embedding.

* Protocol objects and other pointers are `Handle`s (natural numbers); a
  nullable pointer is an `Option Handle`, `none` being `nullptr`.
* Every call the code makes into libc, into the upstream Wayland client
  library or into the embedder (`wpe_*_dispatch_*`) is recorded, in program
  order, as one `Effect` appended to the `trace` of a `World`.  An effect
  carries the values of the argument expressions at the call site.
* A request that creates a proxy returns a fresh handle, `World.nextId`.
* `uint32_t` and `size_t` arithmetic done by the source is written with an
  explicit `% 2 ^ w`.
-/

namespace NC.Wayland

/-- Pointer-like identifier of a protocol object, embedder object or mapping. -/
abbrev Handle := Nat

/-- Width of `size_t` on the target: the source uses `size_t` for the stride and
the byte size of a buffer, and its width is fixed by the platform ABI. -/
inductive Abi where
  | ilp32
  | lp64
  deriving DecidableEq, Repr

/-- Number of bits of `size_t`. -/
def Abi.sizeBits : Abi → Nat
  | .ilp32 => 32
  | .lp64 => 64

/-- Conversion of a non-negative integer to `size_t`. -/
def toSizeT (abi : Abi) (n : Nat) : Nat := n % 2 ^ abi.sizeBits

/-- Conversion of a non-negative integer to `uint32_t`. -/
def toUInt32 (n : Nat) : Nat := n % 2 ^ 32

/-- Conversion of an `int32_t` to `uint32_t` (modular). -/
def int32ToUInt32 (i : Int) : Nat := (i % (2 ^ 32 : Int)).toNat

/-- The four format constants `ViewBackend::allocBuffer` switches on.  They come
from `<wpe/view-backend.h>` and `<wayland-client-protocol.h>`, which are not part
of the source file, so they are parameters.  The two embedder constants are the
labels of two `case`s of one `switch`, hence distinct. -/
structure FormatConstants where
  WPE_FOURCC_XRGB8888 : Nat
  WPE_FOURCC_ARGB8888 : Nat
  WL_SHM_FORMAT_XRGB8888 : Nat
  WL_SHM_FORMAT_ARGB8888 : Nat
  caseLabelsDistinct : WPE_FOURCC_XRGB8888 ≠ WPE_FOURCC_ARGB8888

/-- The values the constants have in the WPE and Wayland headers: the FourCC
codes `XR24` / `AR24` and the `wl_shm` enumerators `1` / `0`. -/
def headerFormats : FormatConstants where
  WPE_FOURCC_XRGB8888 := 0x34325258
  WPE_FOURCC_ARGB8888 := 0x34325241
  WL_SHM_FORMAT_XRGB8888 := 1
  WL_SHM_FORMAT_ARGB8888 := 0
  caseLabelsDistinct := by decide

/-- The globals advertised by the upstream compositor, `m_display.interfaces()`.
A global that was not advertised is `none`. -/
structure Interfaces where
  compositor : Option Handle
  xdg : Option Handle
  shell : Option Handle
  ivi_application : Option Handle
  shm : Option Handle
  seat : Option Handle
  deriving DecidableEq, Repr

/-- A damage rectangle of a commit state. -/
structure Rect where
  X : Int
  Y : Int
  width : Int
  height : Int
  deriving DecidableEq, Repr

/-- One call made by the DRM proxy: into the downstream server library
(`wl_resource_*`, `wl_buffer_send_release`) or into the upstream `wl_drm`. -/
inductive DrmEffect where
  | resourceCreateBuffer (client : Handle) (version id : Nat) (resource : Option Handle)
  | resourcePostNoMemory (resource : Handle)
  | drmCreateBuffer (drm : Handle) (name : Nat) (width height : Int) (stride format : Nat)
      (buffer : Handle)
  | drmCreatePlanarBuffer (drm : Handle) (name : Nat) (width height : Int) (format : Nat)
      (offset0 stride0 offset1 stride1 offset2 stride2 : Int) (buffer : Handle)
  | drmCreatePrimeBuffer (drm : Handle) (name : Int) (width height : Int) (format : Nat)
      (offset0 stride0 offset1 stride1 offset2 stride2 : Int) (buffer : Handle)
  | resourceSetBufferImplementation (resource : Handle) (userData : Handle)
  | bufferAddListener (buffer : Handle) (data : Handle)
  | bufferSendRelease (resource : Handle)
  deriving DecidableEq, Repr

/-- One call made by the backend, with the values of its arguments and, for a
call that returns something the code uses, the returned value. -/
inductive Effect where
  | mkostemp (templ : String) (fd : Int)
  | unlink (name : String)
  | ftruncate (fd : Int) (size : Nat)
  | mmap (size : Nat) (fd : Int) (result : Option Handle)
  | close (fd : Int)
  | shmCreatePool (shm : Handle) (fd : Int) (size : Nat) (pool : Handle)
  | shmPoolCreateBuffer (pool : Handle) (offset width height stride format : Nat)
      (buffer : Handle)
  | shmPoolDestroy (pool : Handle)
  | compositorCreateSurface (compositor : Option Handle) (surface : Handle)
  | xdgShellGetXdgSurface (xdg : Handle) (surface : Option Handle) (xdgSurface : Handle)
  | xdgSurfaceAddListener (xdgSurface : Handle)
  | xdgSurfaceSetTitle (xdgSurface : Handle) (title : String)
  | xdgSurfaceAckConfigure (xdgSurface : Handle) (serial : Nat)
  | xdgSurfaceDestroy (xdgSurface : Handle)
  | shellGetShellSurface (shell : Handle) (surface : Option Handle) (shellSurface : Handle)
  | shellSurfaceAddListener (shellSurface : Handle)
  | shellSurfaceSetToplevel (shellSurface : Handle)
  | shellSurfaceSetTitle (shellSurface : Handle) (title : String)
  | shellSurfaceSetPopup (shellSurface : Handle) (seat : Option Handle) (serial : Nat)
      (parent : Option Handle) (x y : Int) (flags : Nat)
  | shellSurfaceDestroy (shellSurface : Handle)
  | iviApplicationSurfaceCreate (ivi : Handle) (iviId : Nat) (surface : Option Handle)
      (iviSurface : Handle)
  | iviSurfaceAddListener (iviSurface : Handle)
  | iviSurfaceDestroy (iviSurface : Handle)
  | xdgShellGetXdgPopup (xdg : Handle) (surface parent seat : Option Handle) (serial : Nat)
      (x y : Int) (xdgPopup : Handle)
  | xdgPopupAddListener (xdgPopup : Handle)
  | xdgPopupDestroy (xdgPopup : Handle)
  | registerInputClient (surface : Option Handle)
  | unregisterInputClient (surface : Option Handle)
  | surfaceFrame (surface : Option Handle) (callback : Handle)
  | callbackAddListener (callback : Handle)
  | callbackDestroy (callback : Handle)
  | surfaceAttach (surface buffer : Option Handle) (x y : Int)
  | surfaceDamage (surface : Option Handle) (x y width height : Int)
  | surfaceCommit (surface : Option Handle)
  | surfaceDestroy (surface : Handle)
  | dispatchSetSize (backend : Option Handle) (width height : Int)
  | frameComplete (callbackData : Nat)
  | popupDispatchFrameDisplayed (popup : Handle)
  | popupDispatchDismissed (popup : Handle)
  | drm (e : DrmEffect)
  deriving DecidableEq, Repr

/-- The part of the process state the backend acts on: the supply of fresh
handles and the calls made so far, oldest first. -/
structure World where
  nextId : Handle
  trace : List Effect
  deriving DecidableEq, Repr

/-- Record one call. -/
def World.emit (w : World) (e : Effect) : World :=
  { w with trace := w.trace ++ [e] }

/-- Take a fresh handle for a newly created proxy. -/
def World.fresh (w : World) : Handle × World :=
  (w.nextId, { w with nextId := w.nextId + 1 })

/-- The pattern `if (p) destroy(p);`: record `f p` when the pointer is set. -/
def World.emitIf (w : World) (p : Option Handle) (f : Handle → Effect) : World :=
  match p with
  | some h => w.emit (f h)
  | none => w

/-- What the operating system answers to the calls of `allocBuffer`.
`mkostemp` returns the descriptor (negative on failure) and the template with
its placeholder filled in; `mmap` returns `none` for `MAP_FAILED`. -/
structure Os where
  getenv : String → Option String
  mkostemp : String → Int × String
  mmap : Nat → Int → Option Handle

/-- The class `Buffer`: one shared-memory pixel buffer.  The back-reference
`m_backend` is not read by any member and is left out. -/
structure Buffer where
  m_buffer : Handle
  m_fd : Int
  m_data : Handle
  m_size : Nat
  m_format : Nat
  m_width : Nat
  m_height : Nat
  m_stride : Nat
  deriving DecidableEq, Repr

/-- The constructor `Buffer::Buffer`: `size` is a `size_t`, the four pixel
parameters are `uint32_t`, so the `size_t` stride of the caller is converted. -/
def Buffer.new (abi : Abi) (fd : Int) (data : Handle) (size format width height stride : Nat)
    (buffer : Handle) : Buffer where
  m_buffer := buffer
  m_fd := fd
  m_data := data
  m_size := toSizeT abi size
  m_format := toUInt32 format
  m_width := toUInt32 width
  m_height := toUInt32 height
  m_stride := toUInt32 stride

/-- The file-name template of `allocBuffer`. -/
def temp_file_template : String := "/WPE-shared-XXXXXX"

/-- The `switch (format)` of `allocBuffer` that computes `wl_format`. -/
def wlFormat (fc : FormatConstants) (format : Nat) : Nat :=
  if format = fc.WPE_FOURCC_XRGB8888 then fc.WL_SHM_FORMAT_XRGB8888
  else if format = fc.WPE_FOURCC_ARGB8888 then fc.WL_SHM_FORMAT_ARGB8888
  else format

/-- The method `ViewBackend::allocBuffer(format, width, height)`.  `none` is the
null result.  (`new char[]` throws instead of returning null, so the source's
`if (!name)` never fires.) -/
def ViewBackend.allocBuffer (abi : Abi) (fc : FormatConstants) (ifc : Interfaces) (os : Os)
    (format width height : Nat) (w : World) : Option Buffer × World :=
  let stride := toSizeT abi (toUInt32 (width * 4))
  let size := toSizeT abi (height * stride)
  match ifc.shm with
  | none => (none, w)
  | some shm =>
    match os.getenv "XDG_RUNTIME_DIR" with
    | none => (none, w)
    | some path =>
      let templ := path ++ temp_file_template
      let r := os.mkostemp templ
      let fd := r.1
      let name := r.2
      let w1 := w.emit (.mkostemp templ fd)
      if fd < 0 then (none, w1)
      else
        let w2 := w1.emit (.unlink name)
        let w3 := w2.emit (.ftruncate fd size)
        let data := os.mmap size fd
        let w4 := w3.emit (.mmap size fd data)
        match data with
        | none => (none, w4.emit (.close fd))
        | some d =>
          let wl_format := wlFormat fc format
          let p := w4.fresh
          let pool := p.1
          let w5 := p.2.emit (.shmCreatePool shm fd size pool)
          let b := w5.fresh
          let buffer := b.1
          let w6 := b.2.emit (.shmPoolCreateBuffer pool 0 width height stride wl_format buffer)
          let w7 := w6.emit (.shmPoolDestroy pool)
          (some (Buffer.new abi fd d size format width height stride buffer), w7)

open ViewBackend

/-- The formats of the `wl_shm_pool.create_buffer` requests of a trace. -/
def createdFormats : List Effect → List Nat
  | [] => []
  | .shmPoolCreateBuffer _ _ _ _ _ format _ :: t => format :: createdFormats t
  | _ :: t => createdFormats t

/-- The descriptors open after a trace, given those open before it: a
successful `mkostemp` opens one, `close` closes one.  The trace is read oldest
first. -/
def openFdsFrom (fds : List Int) : List Effect → List Int
  | [] => fds
  | .mkostemp _ fd :: t => openFdsFrom (if fd < 0 then fds else fds ++ [fd]) t
  | .close fd :: t => openFdsFrom (fds.erase fd) t
  | _ :: t => openFdsFrom fds t

/-- The descriptors a sequence of calls opened and left open. -/
def openFds (t : List Effect) : List Int := openFdsFrom [] t

/-- The calls made between the world `w` and the later world `w1`. -/
def World.since (w w1 : World) : List Effect := w1.trace.drop w.trace.length

/-- An operating system for the examples: the runtime directory is set, the
temporary file opens as descriptor 5 and the mapping succeeds. -/
def sampleOs : Os where
  getenv := fun v => if v = "XDG_RUNTIME_DIR" then some "/run/user/1000" else none
  mkostemp := fun _ => (5, "/run/user/1000/WPE-shared-a1B2c3")
  mmap := fun _ _ => some 4096

/-- As `sampleOs`, with the runtime directory not set. -/
def sampleOsNoRuntimeDir : Os := { sampleOs with getenv := fun _ => none }

/-- As `sampleOs`, with `mkostemp` failing. -/
def sampleOsNoTempFile : Os := { sampleOs with mkostemp := fun t => (-1, t) }

/-- As `sampleOs`, with `mmap` failing. -/
def sampleOsNoMapping : Os := { sampleOs with mmap := fun _ _ => none }

/-- Upstream globals for the examples: every global advertised. -/
def sampleInterfaces : Interfaces := ⟨some 1, some 2, some 3, some 4, some 5, some 6⟩

/-- The enumeration `NC::ViewDisplay::Surface::Type`.  The source names only the
enumerator `OnScreen`; every other value takes the same path and is `OffScreen`
here. -/
inductive SurfaceType where
  | OnScreen
  | OffScreen
  deriving DecidableEq, Repr

/-- The struct `ViewBackend::Surface::ResizingData`. -/
structure ViewBackend.Surface.ResizingData where
  backend : Option Handle
  width : Nat
  height : Nat
  deriving DecidableEq, Repr

/-- The fields of `ViewBackend::Surface`, with the `type()` of its base class. -/
structure ViewBackend.Surface where
  type : SurfaceType
  m_surface : Option Handle
  m_xdgSurface : Option Handle
  m_shellSurface : Option Handle
  m_iviSurface : Option Handle
  m_callback : Option Handle
  m_backend : Option Handle
  m_resizingData : Surface.ResizingData
  deriving DecidableEq, Repr

/-- The shell-role part of the constructor: `if (xdg) ... else if (shell) ...`.
Returns `(m_xdgSurface, m_shellSurface)`. -/
def ViewBackend.Surface.newShellRole (ifc : Interfaces) (surface : Option Handle) (w : World) :
    Option Handle × Option Handle × World :=
  match ifc.xdg with
  | some xdg =>
    let x := w.fresh
    let w1 := x.2.emit (.xdgShellGetXdgSurface xdg surface x.1)
    let w2 := w1.emit (.xdgSurfaceAddListener x.1)
    let w3 := w2.emit (.xdgSurfaceSetTitle x.1 "WPE")
    (some x.1, none, w3)
  | none =>
    match ifc.shell with
    | some shell =>
      let x := w.fresh
      let w1 := x.2.emit (.shellGetShellSurface shell surface x.1)
      let w2 := w1.emit (.shellSurfaceAddListener x.1)
      let w3 := w2.emit (.shellSurfaceSetToplevel x.1)
      let w4 := w3.emit (.shellSurfaceSetTitle x.1 "WPE")
      (none, some x.1, w4)
    | none => (none, none, w)

/-- The platform-shell part of the constructor: `if (ivi_application) ...`, with
the surface id `4200 + getpid()`.  Returns `m_iviSurface`. -/
def ViewBackend.Surface.newIviRole (ifc : Interfaces) (pid : Nat) (surface : Option Handle)
    (w : World) : Option Handle × World :=
  match ifc.ivi_application with
  | some ivi =>
    let x := w.fresh
    let w1 := x.2.emit (.iviApplicationSurfaceCreate ivi (4200 + pid) surface x.1)
    let w2 := w1.emit (.iviSurfaceAddListener x.1)
    (some x.1, w2)
  | none => (none, w)

/-- The constructor `ViewBackend::Surface::Surface`. -/
def ViewBackend.Surface.new (backend : Option Handle) (ifc : Interfaces) (t : SurfaceType)
    (pid : Nat) (w : World) : Surface × World :=
  let s := w.fresh
  let m_surface := some s.1
  let w1 := s.2.emit (.compositorCreateSurface ifc.compositor s.1)
  match t with
  | .OnScreen =>
    let r := Surface.newShellRole ifc m_surface w1
    let i := Surface.newIviRole ifc pid m_surface r.2.2
    let w2 := i.2.emit (.registerInputClient m_surface)
    ({ type := t, m_surface := m_surface, m_xdgSurface := r.1, m_shellSurface := r.2.1,
       m_iviSurface := i.1, m_callback := none, m_backend := backend,
       m_resizingData := ⟨backend, 0, 0⟩ }, w2)
  | .OffScreen =>
    ({ type := t, m_surface := m_surface, m_xdgSurface := none, m_shellSurface := none,
       m_iviSurface := none, m_callback := none, m_backend := backend,
       m_resizingData := ⟨backend, 0, 0⟩ }, w1)

/-- The destructor `ViewBackend::Surface::~Surface`. -/
def ViewBackend.Surface.destroy (s : Surface) (w : World) : Surface × World :=
  let w0 := if s.type = .OnScreen then w.emit (.unregisterInputClient s.m_surface) else w
  let w1 := w0.emitIf s.m_iviSurface .iviSurfaceDestroy
  let w2 := w1.emitIf s.m_xdgSurface .xdgSurfaceDestroy
  let w3 := w2.emitIf s.m_shellSurface .shellSurfaceDestroy
  let w4 := w3.emitIf s.m_callback .callbackDestroy
  let w5 := w4.emitIf s.m_surface .surfaceDestroy
  ({ s with m_iviSurface := none, m_xdgSurface := none, m_shellSurface := none,
            m_callback := none, m_surface := none }, w5)

/-- The body shared by the guarded configure handlers: dispatch the clamped size
to the embedder and store the proposed size in the `uint32_t` fields. -/
def resizeTo (data : Surface.ResizingData) (width height : Int) (w : World) :
    Surface.ResizingData × World :=
  (⟨data.backend, int32ToUInt32 width, int32ToUInt32 height⟩,
   w.emit (.dispatchSetSize data.backend (max 0 width) (max 0 height)))

/-- The `configure` entry of `g_xdgSurfaceListener`. -/
def g_xdgSurfaceListener.configure (data : Surface.ResizingData) (surface : Handle)
    (width height : Int) (serial : Nat) (w : World) : Surface.ResizingData × World :=
  let r := if width ≠ 0 ∨ height ≠ 0 then resizeTo data width height w else (data, w)
  (r.1, r.2.emit (.xdgSurfaceAckConfigure surface serial))

/-- The `configure` entry of `g_shellSurfaceListener` (its edges argument is
unnamed and unused). -/
def g_shellSurfaceListener.configure (data : Surface.ResizingData) (_surface : Handle)
    (width height : Int) (w : World) : Surface.ResizingData × World :=
  if width ≠ 0 ∨ height ≠ 0 then resizeTo data width height w else (data, w)

/-- The `configure` entry of `g_iviSurfaceListener`: no test of the size. -/
def g_iviSurfaceListener.configure (data : Surface.ResizingData) (width height : Int) (w : World) :
    Surface.ResizingData × World :=
  resizeTo data width height w

/-- The method `ViewBackend::Surface::onSurfaceCommit`; `damage` is
`state.damage`. -/
def ViewBackend.Surface.onSurfaceCommit (s : Surface) (damage : Option Rect) (w : World) :
    Surface × World :=
  let w1 := w.emitIf s.m_callback .callbackDestroy
  let c := w1.fresh
  let w2 := c.2.emit (.surfaceFrame s.m_surface c.1)
  let w3 := w2.emit (.callbackAddListener c.1)
  let w4 := match damage with
    | some d => w3.emit (.surfaceDamage s.m_surface d.X d.Y d.width d.height)
    | none => w3
  ({ s with m_callback := some c.1 }, w4.emit (.surfaceCommit s.m_surface))

/-- The `done` entry of the `frameCallbackListener` of `onSurfaceCommit`.  It
destroys `m_callback` without a null test: with no callback set the call is
undefined, which is `none` here. -/
def ViewBackend.Surface.frameCallbackListener.done (s : Surface) (callback_data : Nat) (w : World) :
    Option (Surface × World) :=
  match s.m_callback with
  | none => none
  | some c =>
    some ({ s with m_callback := none },
          (w.emit (.callbackDestroy c)).emit (.frameComplete callback_data))

/-- The frame callbacks a trace leaves live: requested by `wl_surface.frame` and
not destroyed afterwards.  The trace is read oldest first. -/
def liveCallbacksFrom (live : List Handle) : List Effect → List Handle
  | [] => live
  | .surfaceFrame _ c :: t => liveCallbacksFrom (live ++ [c]) t
  | .callbackDestroy c :: t => liveCallbacksFrom (live.erase c) t
  | _ :: t => liveCallbacksFrom live t

/-- The live frame callbacks of a whole trace. -/
def liveCallbacks (t : List Effect) : List Handle := liveCallbacksFrom [] t

/-- How often a trace destroys the callback `c`. -/
def destroyCount (c : Handle) : List Effect → Nat
  | [] => 0
  | .callbackDestroy d :: t => (if d = c then 1 else 0) + destroyCount c t
  | _ :: t => destroyCount c t

/-- What can happen to a Surface between construction and destruction. -/
inductive SurfaceEvent where
  | commit (damage : Option Rect)
  | frameDone (callback : Handle) (callback_data : Nat)
  deriving DecidableEq, Repr

/-- One event on a Surface.  The client library delivers `done` only to a
callback proxy that still exists; an event for a destroyed proxy is dropped
before it reaches the listener. -/
def ViewBackend.Surface.step (sw : Surface × World) : SurfaceEvent → Option (Surface × World)
  | .commit damage => some (Surface.onSurfaceCommit sw.1 damage sw.2)
  | .frameDone callback callback_data =>
    if callback ∈ liveCallbacks sw.2.trace then
      Surface.frameCallbackListener.done sw.1 callback_data sw.2
    else some sw

/-- A sequence of events on a Surface, from the left. -/
def ViewBackend.Surface.run (sw : Surface × World) :
    List SurfaceEvent → Option (Surface × World)
  | [] => some sw
  | e :: es =>
    match Surface.step sw e with
    | none => none
    | some sw1 => Surface.run sw1 es

/-- The fields of the class `Popup` (without the back-reference `m_parent`). -/
structure Popup where
  m_popup : Handle
  m_surface : Option Handle
  m_xdgPopup : Option Handle
  m_shellSurface : Option Handle
  m_frameCallback : Option Handle
  deriving DecidableEq, Repr

/-- The constructor `Popup::Popup`; `parent` is `mainSurface()->surface()` and
`serial` is `display.serial()`. -/
def Popup.new (popup : Handle) (parent : Option Handle) (ifc : Interfaces) (serial : Nat)
    (x y : Int) (w : World) : Popup × World :=
  let s := w.fresh
  let m_surface := some s.1
  let w1 := s.2.emit (.compositorCreateSurface ifc.compositor s.1)
  match ifc.xdg with
  | some xdg =>
    let p := w1.fresh
    let w2 := p.2.emit (.xdgShellGetXdgPopup xdg m_surface parent ifc.seat serial x y p.1)
    let w3 := w2.emit (.xdgPopupAddListener p.1)
    (⟨popup, m_surface, some p.1, none, none⟩, w3.emit (.registerInputClient m_surface))
  | none =>
    match ifc.shell with
    | some shell =>
      let p := w1.fresh
      let w2 := p.2.emit (.shellGetShellSurface shell m_surface p.1)
      let w3 := w2.emit (.shellSurfaceSetPopup p.1 ifc.seat serial parent x y 0)
      let w4 := w3.emit (.shellSurfaceAddListener p.1)
      (⟨popup, m_surface, none, some p.1, none⟩, w4.emit (.registerInputClient m_surface))
    | none =>
      (⟨popup, m_surface, none, none, none⟩, w1.emit (.registerInputClient m_surface))

/-- The destructor `Popup::~Popup`. -/
def Popup.destroy (p : Popup) (w : World) : Popup × World :=
  let w1 := w.emitIf p.m_xdgPopup .xdgPopupDestroy
  let w2 := w1.emitIf p.m_shellSurface .shellSurfaceDestroy
  let w3 := match p.m_surface with
    | some s => (w2.emit (.unregisterInputClient (some s))).emit (.surfaceDestroy s)
    | none => w2
  let w4 := w3.emitIf p.m_frameCallback .callbackDestroy
  (⟨p.m_popup, none, none, none, none⟩, w4)

/-- The method `Popup::attachBuffer`; `none` is a null buffer.  In the null
branch `m_frameCallback` is not assigned. -/
def Popup.attachBuffer (p : Popup) (buffer : Option Buffer) (w : World) : Popup × World :=
  let w1 := w.emitIf p.m_frameCallback .callbackDestroy
  match buffer with
  | some b =>
    let c := w1.fresh
    let w2 := c.2.emit (.surfaceFrame p.m_surface c.1)
    let w3 := w2.emit (.callbackAddListener c.1)
    let w4 := w3.emit (.surfaceAttach p.m_surface (some b.m_buffer) 0 0)
    let w5 := w4.emit (.surfaceDamage p.m_surface 0 0 b.m_width b.m_height)
    ({ p with m_frameCallback := some c.1 }, w5.emit (.surfaceCommit p.m_surface))
  | none =>
    let w2 := w1.emit (.surfaceAttach p.m_surface none 0 0)
    (p, w2.emit (.surfaceCommit p.m_surface))

/-- The `done` entry of `Popup::s_frameCallbackListener`; undefined (`none`)
when no callback is set. -/
def Popup.s_frameCallbackListener.done (p : Popup) (w : World) : Option (Popup × World) :=
  match p.m_frameCallback with
  | none => none
  | some c =>
    some ({ p with m_frameCallback := none },
          (w.emit (.callbackDestroy c)).emit (.popupDispatchFrameDisplayed p.m_popup))

/-- The `popup_done` entry of `Popup::s_shellSurfaceListener`; undefined
(`none`) when the Popup has no legacy shell surface. -/
def Popup.s_shellSurfaceListener.popup_done (p : Popup) (w : World) : Option (Popup × World) :=
  match p.m_shellSurface with
  | none => none
  | some h =>
    some ({ p with m_shellSurface := none },
          (w.emit (.shellSurfaceDestroy h)).emit (.popupDispatchDismissed p.m_popup))

/-- The `popup_done` entry of `Popup::s_xdgPopupListener`; undefined (`none`)
when the Popup has no xdg popup. -/
def Popup.s_xdgPopupListener.popup_done (p : Popup) (w : World) : Option (Popup × World) :=
  match p.m_xdgPopup with
  | none => none
  | some h =>
    some ({ p with m_xdgPopup := none },
          (w.emit (.xdgPopupDestroy h)).emit (.popupDispatchDismissed p.m_popup))

/-- The protocol a Popup was built on. -/
inductive PopupProtocol where
  | xdg
  | shell
  deriving DecidableEq, Repr

/-- The handle of the protocol object of a Popup. -/
def Popup.protocolObject (p : Popup) : PopupProtocol → Option Handle
  | .xdg => p.m_xdgPopup
  | .shell => p.m_shellSurface

/-- The `popup_done` handler of a protocol. -/
def Popup.popupDone (p : Popup) (w : World) : PopupProtocol → Option (Popup × World)
  | .xdg => Popup.s_xdgPopupListener.popup_done p w
  | .shell => Popup.s_shellSurfaceListener.popup_done p w

/-- The request that destroys the protocol object of a Popup. -/
def PopupProtocol.destroyEffect : PopupProtocol → Handle → Effect
  | .xdg => .xdgPopupDestroy
  | .shell => .shellSurfaceDestroy

/-- Whether a call belongs to the shell-surface role of a Surface: the requests
that create the `xdg_surface` or the `wl_shell_surface` and set it up. -/
def Effect.isShellRoleRequest : Effect → Bool
  | .xdgShellGetXdgSurface _ _ _ => true
  | .xdgSurfaceAddListener _ => true
  | .xdgSurfaceSetTitle _ _ => true
  | .shellGetShellSurface _ _ _ => true
  | .shellSurfaceAddListener _ => true
  | .shellSurfaceSetToplevel _ => true
  | .shellSurfaceSetTitle _ _ => true
  | _ => false

/-- The shell-surface role requests of a trace, in order. -/
def shellRoleRequests (t : List Effect) : List Effect := t.filter Effect.isShellRoleRequest

/-- How many of the three role objects of a Surface are non-null. -/
def ViewBackend.Surface.roleCount (s : Surface) : Nat :=
  (if s.m_xdgSurface.isSome then 1 else 0) + (if s.m_shellSurface.isSome then 1 else 0) +
    (if s.m_iviSurface.isSome then 1 else 0)

/-- Whether a call is an `xdg_surface.ack_configure`. -/
def Effect.isAckConfigure : Effect → Bool
  | .xdgSurfaceAckConfigure _ _ => true
  | _ => false

/-- The acknowledgments of a trace, in order. -/
def ackConfigures (t : List Effect) : List Effect := t.filter Effect.isAckConfigure

/-- At most one frame callback is live before the trace, after it, and between
any two of its calls. -/
def atMostOneLiveFrom (live : List Handle) : List Effect → Prop
  | [] => live.length ≤ 1
  | e :: t => live.length ≤ 1 ∧ atMostOneLiveFrom (liveCallbacksFrom live [e]) t

/-- The invariant of a Surface and its trace: the live frame callbacks are
exactly `m_callback`; that callback was handed out already and never destroyed;
no callback was destroyed twice; no handle still to be handed out was
destroyed; at no point of the trace were two callbacks live. -/
def SurfaceInv (sw : Surface × World) : Prop :=
  liveCallbacks sw.2.trace = sw.1.m_callback.toList ∧
  (∀ c, sw.1.m_callback = some c → c < sw.2.nextId ∧ destroyCount c sw.2.trace = 0) ∧
  (∀ c, destroyCount c sw.2.trace ≤ 1) ∧
  (∀ c, sw.2.nextId ≤ c → destroyCount c sw.2.trace = 0) ∧
  atMostOneLiveFrom [] sw.2.trace

set_option linter.dupNamespace false

/-- The struct `drm` of the source: the user data of a downstream `wl_drm`
resource. -/
structure drm where
  drm : Handle
  display : Handle
  deriving DecidableEq, Repr

/-- The part the three create handlers of `ViewBackend::g_drmImplementation`
share after the upstream buffer is created:
`wl_resource_set_implementation(buffer_resource, &g_drmBufferImplementation,
buffer, destroyBuffer)`, which stores the upstream buffer as user data, and
`wl_buffer_add_listener(buffer, &g_drmBufferListener, buffer_resource)`. -/
def ViewBackend.g_drmImplementation.wrap (buffer_resource buffer : Handle) (w : World) : World :=
  (w.emit (.drm (.resourceSetBufferImplementation buffer_resource buffer))).emit
    (.drm (.bufferAddListener buffer buffer_resource))

/-- The `create_buffer` entry of `ViewBackend::g_drmImplementation`.  `d` is the
user data of `resource`; `created` is what
`wl_resource_create(client, &wl_buffer_interface, 1, id)` returns, `none` for
null. -/
def ViewBackend.g_drmImplementation.create_buffer (created : Option Handle) (d : drm)
    (client resource : Handle) (id name : Nat) (width height : Int) (stride format : Nat)
    (w : World) : World :=
  let w1 := w.emit (.drm (.resourceCreateBuffer client 1 id created))
  match created with
  | none => w1.emit (.drm (.resourcePostNoMemory resource))
  | some buffer_resource =>
    let b := w1.fresh
    let w2 := b.2.emit (.drm (.drmCreateBuffer d.drm name width height stride format b.1))
    ViewBackend.g_drmImplementation.wrap buffer_resource b.1 w2

/-- The `create_planar_buffer` entry of `ViewBackend::g_drmImplementation`. -/
def ViewBackend.g_drmImplementation.create_planar_buffer (created : Option Handle) (d : drm)
    (client resource : Handle) (id name : Nat) (width height : Int) (format : Nat)
    (offset0 stride0 offset1 stride1 offset2 stride2 : Int) (w : World) : World :=
  let w1 := w.emit (.drm (.resourceCreateBuffer client 1 id created))
  match created with
  | none => w1.emit (.drm (.resourcePostNoMemory resource))
  | some buffer_resource =>
    let b := w1.fresh
    let w2 := b.2.emit (.drm (.drmCreatePlanarBuffer d.drm name width height format
      offset0 stride0 offset1 stride1 offset2 stride2 b.1))
    ViewBackend.g_drmImplementation.wrap buffer_resource b.1 w2

/-- The `create_prime_buffer` entry of `ViewBackend::g_drmImplementation`; its
`name` is an `int32_t`. -/
def ViewBackend.g_drmImplementation.create_prime_buffer (created : Option Handle) (d : drm)
    (client resource : Handle) (id : Nat) (name : Int) (width height : Int) (format : Nat)
    (offset0 stride0 offset1 stride1 offset2 stride2 : Int) (w : World) : World :=
  let w1 := w.emit (.drm (.resourceCreateBuffer client 1 id created))
  match created with
  | none => w1.emit (.drm (.resourcePostNoMemory resource))
  | some buffer_resource =>
    let b := w1.fresh
    let w2 := b.2.emit (.drm (.drmCreatePrimeBuffer d.drm name width height format
      offset0 stride0 offset1 stride1 offset2 stride2 b.1))
    ViewBackend.g_drmImplementation.wrap buffer_resource b.1 w2

/-- The `release` entry of `ViewBackend::g_drmBufferListener`; `data` is the
pointer the listener was added with. -/
def ViewBackend.g_drmBufferListener.release (data : Handle) (_buffer : Handle) (w : World) :
    World :=
  w.emit (.drm (.bufferSendRelease data))

/-- Whether a call is one of the three upstream `wl_drm` create requests. -/
def Effect.isDrmCreate : Effect → Bool
  | .drm (.drmCreateBuffer _ _ _ _ _ _ _) => true
  | .drm (.drmCreatePlanarBuffer _ _ _ _ _ _ _ _ _ _ _ _) => true
  | .drm (.drmCreatePrimeBuffer _ _ _ _ _ _ _ _ _ _ _ _) => true
  | _ => false

/-- The upstream `wl_drm` create requests of a trace, in order. -/
def drmCreates (t : List Effect) : List Effect := t.filter Effect.isDrmCreate

/-- The struct `wpe_buffer_info` that `get_info` fills.  It is declared in
`<wpe/view-backend.h>`, which is not part of the source file; its fields are the
five that `get_info` assigns, wide enough for the `uint32_t` members and the
pointer assigned to them. -/
structure wpe_buffer_info where
  format : Nat
  width : Nat
  height : Nat
  stride : Nat
  data : Handle
  deriving DecidableEq, Repr

/-- The `get_info` entry of `Buffer::interface`. -/
def Buffer.interface.get_info (buffer : Buffer) : wpe_buffer_info where
  format := buffer.m_format
  height := buffer.m_height
  width := buffer.m_width
  stride := buffer.m_stride
  data := buffer.m_data

/-- Whether a call destroys a frame callback. -/
def Effect.isCallbackDestroy : Effect → Bool
  | .callbackDestroy _ => true
  | _ => false

/-- A Buffer for the examples: what `allocBuffer` returns for an ARGB8888
request of 4 × 4 pixels on `sampleOs`. -/
def sampleBuffer : Buffer := ⟨11, 5, 4096, 64, 0x34325241, 4, 4, 16⟩

/-- What can happen to a Popup between construction and destruction. -/
inductive PopupEvent where
  | attachBuffer (buffer : Option Buffer)
  | frameDone (callback : Handle)
  deriving DecidableEq, Repr

/-- One event on a Popup.  As for a Surface, `done` reaches the listener only
for a callback proxy that still exists. -/
def Popup.step (pw : Popup × World) : PopupEvent → Option (Popup × World)
  | .attachBuffer buffer => some (Popup.attachBuffer pw.1 buffer pw.2)
  | .frameDone callback =>
    if callback ∈ liveCallbacks pw.2.trace then Popup.s_frameCallbackListener.done pw.1 pw.2
    else some pw

/-- A sequence of events on a Popup, from the left. -/
def Popup.run (pw : Popup × World) : List PopupEvent → Option (Popup × World)
  | [] => some pw
  | e :: es =>
    match Popup.step pw e with
    | none => none
    | some pw1 => Popup.run pw1 es

/-- A sequence of events on a Popup followed by its destruction: the final
trace. -/
def Popup.runThenDestroy (pw : Popup × World) (es : List PopupEvent) : Option (List Effect) :=
  (Popup.run pw es).map fun pw1 => (Popup.destroy pw1.1 pw1.2).2.trace

/-! ## Buffer allocation -/

/-- A successful `allocBuffer` went through every step: the calls it made and
the Buffer it built. -/
theorem allocBuffer_some (abi : Abi) (fc : FormatConstants) (ifc : Interfaces) (os : Os)
    (format width height : Nat) (w : World) (b : Buffer) (w1 : World)
    (h : allocBuffer abi fc ifc os format width height w = (some b, w1)) :
    ∃ shm path d,
      ifc.shm = some shm ∧ os.getenv "XDG_RUNTIME_DIR" = some path ∧
      ¬ (os.mkostemp (path ++ temp_file_template)).1 < 0 ∧
      os.mmap (toSizeT abi (height * toSizeT abi (toUInt32 (width * 4))))
        (os.mkostemp (path ++ temp_file_template)).1 = some d ∧
      b = Buffer.new abi (os.mkostemp (path ++ temp_file_template)).1 d
            (toSizeT abi (height * toSizeT abi (toUInt32 (width * 4))))
            format width height (toSizeT abi (toUInt32 (width * 4))) (w.nextId + 1) ∧
      w1.trace = w.trace ++
        [.mkostemp (path ++ temp_file_template) (os.mkostemp (path ++ temp_file_template)).1,
         .unlink (os.mkostemp (path ++ temp_file_template)).2,
         .ftruncate (os.mkostemp (path ++ temp_file_template)).1
            (toSizeT abi (height * toSizeT abi (toUInt32 (width * 4)))),
         .mmap (toSizeT abi (height * toSizeT abi (toUInt32 (width * 4))))
            (os.mkostemp (path ++ temp_file_template)).1 (some d),
         .shmCreatePool shm (os.mkostemp (path ++ temp_file_template)).1
            (toSizeT abi (height * toSizeT abi (toUInt32 (width * 4)))) w.nextId,
         .shmPoolCreateBuffer w.nextId 0 width height (toSizeT abi (toUInt32 (width * 4)))
            (wlFormat fc format) (w.nextId + 1),
         .shmPoolDestroy w.nextId] := by
  unfold allocBuffer at h
  cases hshm : ifc.shm with
  | none => simp [hshm] at h
  | some shm =>
    cases henv : os.getenv "XDG_RUNTIME_DIR" with
    | none => simp [hshm, henv] at h
    | some path =>
      simp only [hshm, henv] at h
      by_cases hfd : (os.mkostemp (path ++ temp_file_template)).1 < 0
      · simp [hfd] at h
      · simp only [hfd, if_false] at h
        cases hmap : os.mmap (toSizeT abi (height * toSizeT abi (toUInt32 (width * 4))))
            (os.mkostemp (path ++ temp_file_template)).1 with
        | none => simp [hmap] at h
        | some d =>
          simp only [hmap] at h
          refine ⟨shm, path, d, rfl, rfl, hfd, hmap, ?_, ?_⟩
          · have := (Prod.mk.inj h).1
            simpa [World.fresh, World.emit] using (Option.some.inj this).symm
          · have := (Prod.mk.inj h).2
            rw [← this]
            simp [World.fresh, World.emit]

/-- The calls since `w` of a world whose trace extends that of `w`. -/
theorem World.since_append (w w1 : World) (l : List Effect) (h : w1.trace = w.trace ++ l) :
    w.since w1 = l := by
  simp [World.since, h]

/-- C1: in `ViewBackend::allocBuffer`, the upstream `wl_shm` buffer of a
successful call is created with `WL_SHM_FORMAT_XRGB8888` when the format is
`WPE_FOURCC_XRGB8888`, with `WL_SHM_FORMAT_ARGB8888` when it is
`WPE_FOURCC_ARGB8888`, and with the format passed in for every other value;
exactly one upstream buffer is created. -/
theorem allocBuffer_upstream_format (abi : Abi) (fc : FormatConstants) (ifc : Interfaces)
    (os : Os) (format width height : Nat) (w : World) (b : Buffer) (w1 : World)
    (h : allocBuffer abi fc ifc os format width height w = (some b, w1)) :
    (format = fc.WPE_FOURCC_XRGB8888 →
      createdFormats (w.since w1) = [fc.WL_SHM_FORMAT_XRGB8888]) ∧
    (format = fc.WPE_FOURCC_ARGB8888 →
      createdFormats (w.since w1) = [fc.WL_SHM_FORMAT_ARGB8888]) ∧
    (format ≠ fc.WPE_FOURCC_XRGB8888 → format ≠ fc.WPE_FOURCC_ARGB8888 →
      createdFormats (w.since w1) = [format]) := by
  obtain ⟨shm, path, d, -, -, -, -, -, htr⟩ :=
    allocBuffer_some abi fc ifc os format width height w b w1 h
  have hc : createdFormats (w.since w1) = [wlFormat fc format] := by
    rw [World.since_append w w1 _ htr]
    simp [createdFormats]
  refine ⟨fun hx => ?_, fun ha => ?_, fun hx ha => ?_⟩
  · rw [hc]; simp [wlFormat, hx]
  · have hne : fc.WPE_FOURCC_ARGB8888 ≠ fc.WPE_FOURCC_XRGB8888 :=
      fun e => fc.caseLabelsDistinct e.symm
    rw [hc]; simp [wlFormat, ha, hne]
  · rw [hc]; simp [wlFormat, hx, ha]

/-- C1, at the header values: an ARGB8888 request of 4 × 4 pixels creates the
upstream buffer with the `wl_shm` format 0, not with the FourCC code. -/
theorem allocBuffer_upstream_format_witness :
    allocBuffer .lp64 headerFormats sampleInterfaces sampleOs 0x34325241 4 4 ⟨10, []⟩ =
      (some ⟨11, 5, 4096, 64, 0x34325241, 4, 4, 16⟩,
       (allocBuffer .lp64 headerFormats sampleInterfaces sampleOs 0x34325241 4 4
         ⟨10, []⟩).2) ∧
    createdFormats ((⟨10, []⟩ : World).since
      (allocBuffer .lp64 headerFormats sampleInterfaces sampleOs 0x34325241 4 4 ⟨10, []⟩).2)
      = [0] :=
  ⟨by rfl,
   (allocBuffer_upstream_format .lp64 headerFormats sampleInterfaces sampleOs 0x34325241 4 4
      ⟨10, []⟩ ⟨11, 5, 4096, 64, 0x34325241, 4, 4, 16⟩ _ (by rfl)).2.1 rfl⟩

/-- In `uint32_t` the product `width * 4` is kept when it fits, and so is the
`size_t` product of the height and the stride. -/
theorem stride_size_exact (abi : Abi) (width height : Nat) :
    toUInt32 (toSizeT abi (toUInt32 (width * 4))) = (width * 4) % 2 ^ 32 ∧
    toSizeT abi (toSizeT abi (height * toSizeT abi (toUInt32 (width * 4)))) =
      (height * ((width * 4) % 2 ^ 32)) % 2 ^ abi.sizeBits := by
  have hlt : (width * 4) % 2 ^ 32 < 2 ^ abi.sizeBits := by
    have h1 : (width * 4) % 2 ^ 32 < 2 ^ 32 := Nat.mod_lt _ (by norm_num)
    have h2 : (2 : Nat) ^ 32 ≤ 2 ^ abi.sizeBits := by
      cases abi <;> simp [Abi.sizeBits]
    omega
  have hs : toSizeT abi (toUInt32 (width * 4)) = (width * 4) % 2 ^ 32 := by
    unfold toSizeT toUInt32
    exact Nat.mod_eq_of_lt hlt
  constructor
  · rw [hs]
    unfold toUInt32
    exact Nat.mod_mod _ _
  · rw [hs]
    unfold toSizeT
    exact Nat.mod_mod _ _

/-- C2, as the code has it: for a successful `allocBuffer` the stride is
`width * 4` reduced to 32 bits and the size is `height * stride` reduced to the
width of `size_t`; when `width * 4` fits in 32 bits and `height * width * 4` fits
in `size_t`, the stride is exactly `width * 4` and the size exactly
`height * stride`. -/
theorem allocBuffer_stride_size (abi : Abi) (fc : FormatConstants) (ifc : Interfaces)
    (os : Os) (format width height : Nat) (w : World) (b : Buffer) (w1 : World)
    (h : allocBuffer abi fc ifc os format width height w = (some b, w1)) :
    (b.m_stride = (width * 4) % 2 ^ 32 ∧
     b.m_size = (height * b.m_stride) % 2 ^ abi.sizeBits) ∧
    (width * 4 < 2 ^ 32 → height * (width * 4) < 2 ^ abi.sizeBits →
      b.m_stride = width * 4 ∧ b.m_size = height * b.m_stride) := by
  obtain ⟨shm, path, d, -, -, -, -, hb, -⟩ :=
    allocBuffer_some abi fc ifc os format width height w b w1 h
  have hst : b.m_stride = (width * 4) % 2 ^ 32 := by
    rw [hb]; exact (stride_size_exact abi width height).1
  have hsz : b.m_size = (height * ((width * 4) % 2 ^ 32)) % 2 ^ abi.sizeBits := by
    rw [hb]; exact (stride_size_exact abi width height).2
  refine ⟨⟨hst, by rw [hsz, hst]⟩, fun hw hs => ?_⟩
  have e : (width * 4) % 2 ^ 32 = width * 4 := Nat.mod_eq_of_lt hw
  refine ⟨by rw [hst, e], ?_⟩
  rw [hsz, hst, e]
  exact Nat.mod_eq_of_lt hs

/-- C2, the scenario of the specification: 4 × 4 pixels give stride 16 and
size 64. -/
theorem allocBuffer_stride_size_witness :
    ((allocBuffer .lp64 headerFormats sampleInterfaces sampleOs 0x34325241 4 4 ⟨10, []⟩).1.map
        fun b => (b.m_stride, b.m_size)) = some (16, 64) ∧
    ((16 : Nat) = 4 * 4 ∧ (64 : Nat) = 4 * 16) :=
  ⟨by rfl,
   (allocBuffer_stride_size .lp64 headerFormats sampleInterfaces sampleOs 0x34325241 4 4
      ⟨10, []⟩ ⟨11, 5, 4096, 64, 0x34325241, 4, 4, 16⟩ _ (by rfl)).2
      (by decide) (by decide)⟩

/-- C2 as stated fails: a width of `2 ^ 30 + 1` is an unsigned 32-bit value, the
call succeeds, and the stride is 4 and the size 4, not `(2 ^ 30 + 1) * 4`. -/
theorem allocBuffer_stride_wraps :
    2 ^ 30 + 1 < 2 ^ 32 ∧
    ((allocBuffer .lp64 headerFormats sampleInterfaces sampleOs 0x34325241 (2 ^ 30 + 1) 1
        ⟨10, []⟩).1.map fun b => (b.m_width, b.m_stride, b.m_size)) =
      some (2 ^ 30 + 1, 4, 4) ∧
    (4 : Nat) ≠ (2 ^ 30 + 1) * 4 :=
  ⟨by decide, by rfl, by decide⟩

/-- C3: `allocBuffer` returns null exactly when the shared-memory global is
missing, `XDG_RUNTIME_DIR` is unset, `mkostemp` fails or `mmap` fails; on every
null return no descriptor opened by the call is left open; with the global or
the variable missing the call does nothing at all; and when `mmap` fails the
last thing the call does is to close the descriptor. -/
theorem allocBuffer_null (abi : Abi) (fc : FormatConstants) (ifc : Interfaces) (os : Os)
    (format width height : Nat) (w : World) :
    ((allocBuffer abi fc ifc os format width height w).1 = none ↔
      (ifc.shm = none ∨ os.getenv "XDG_RUNTIME_DIR" = none ∨
        ∃ path, os.getenv "XDG_RUNTIME_DIR" = some path ∧
          ((os.mkostemp (path ++ temp_file_template)).1 < 0 ∨
           os.mmap (toSizeT abi (height * toSizeT abi (toUInt32 (width * 4))))
             (os.mkostemp (path ++ temp_file_template)).1 = none))) ∧
    ((allocBuffer abi fc ifc os format width height w).1 = none →
      openFds (w.since (allocBuffer abi fc ifc os format width height w).2) = []) ∧
    (ifc.shm = none ∨ os.getenv "XDG_RUNTIME_DIR" = none →
      (allocBuffer abi fc ifc os format width height w).2 = w) ∧
    (∀ shm path, ifc.shm = some shm → os.getenv "XDG_RUNTIME_DIR" = some path →
      ¬ (os.mkostemp (path ++ temp_file_template)).1 < 0 →
      os.mmap (toSizeT abi (height * toSizeT abi (toUInt32 (width * 4))))
        (os.mkostemp (path ++ temp_file_template)).1 = none →
      w.since (allocBuffer abi fc ifc os format width height w).2 =
        [.mkostemp (path ++ temp_file_template) (os.mkostemp (path ++ temp_file_template)).1,
         .unlink (os.mkostemp (path ++ temp_file_template)).2,
         .ftruncate (os.mkostemp (path ++ temp_file_template)).1
            (toSizeT abi (height * toSizeT abi (toUInt32 (width * 4)))),
         .mmap (toSizeT abi (height * toSizeT abi (toUInt32 (width * 4))))
            (os.mkostemp (path ++ temp_file_template)).1 none,
         .close (os.mkostemp (path ++ temp_file_template)).1]) := by
  unfold allocBuffer
  cases hshm : ifc.shm with
  | none => simp [World.since, openFds, openFdsFrom]
  | some shm =>
    cases henv : os.getenv "XDG_RUNTIME_DIR" with
    | none => simp [World.since, openFds, openFdsFrom]
    | some path =>
      by_cases hfd : (os.mkostemp (path ++ temp_file_template)).1 < 0
      · simp [hfd, World.since, World.emit, openFds, openFdsFrom]
      · cases hmap : os.mmap (toSizeT abi (height * toSizeT abi (toUInt32 (width * 4))))
            (os.mkostemp (path ++ temp_file_template)).1 with
        | none =>
          simp [hfd, hmap, World.since, World.emit, openFds, openFdsFrom]
        | some d =>
          simp [hfd, hmap, World.since, World.emit, World.fresh, openFds, openFdsFrom]

/-- C3 on concrete systems.  Without `XDG_RUNTIME_DIR` the call returns null and
does nothing; when `mkostemp` fails it returns null; when `mmap` fails it
returns null after closing descriptor 5, which it had opened, and leaves no
descriptor open. -/
theorem allocBuffer_null_witness :
    allocBuffer .lp64 headerFormats sampleInterfaces sampleOsNoRuntimeDir
      0x34325241 4 4 ⟨10, []⟩ = (none, ⟨10, []⟩) ∧
    (allocBuffer .lp64 headerFormats sampleInterfaces sampleOsNoTempFile
      0x34325241 4 4 ⟨10, []⟩).1 = none ∧
    (allocBuffer .lp64 headerFormats sampleInterfaces sampleOsNoMapping
      0x34325241 4 4 ⟨10, []⟩).1 = none ∧
    openFds ((⟨10, []⟩ : World).since
      (allocBuffer .lp64 headerFormats sampleInterfaces sampleOsNoMapping
        0x34325241 4 4 ⟨10, []⟩).2) = [] ∧
    (⟨10, []⟩ : World).since
      (allocBuffer .lp64 headerFormats sampleInterfaces sampleOsNoMapping
        0x34325241 4 4 ⟨10, []⟩).2 =
      [.mkostemp "/run/user/1000/WPE-shared-XXXXXX" 5,
       .unlink "/run/user/1000/WPE-shared-a1B2c3",
       .ftruncate 5 64,
       .mmap 64 5 none,
       .close 5] :=
  ⟨by rfl,
   (allocBuffer_null .lp64 headerFormats sampleInterfaces sampleOsNoTempFile 0x34325241 4 4
      ⟨10, []⟩).1.2 (Or.inr (Or.inr ⟨"/run/user/1000", by rfl, Or.inl (by decide)⟩)),
   (allocBuffer_null .lp64 headerFormats sampleInterfaces sampleOsNoMapping 0x34325241 4 4
      ⟨10, []⟩).1.2 (Or.inr (Or.inr ⟨"/run/user/1000", by rfl, Or.inr (by rfl)⟩)),
   (allocBuffer_null .lp64 headerFormats sampleInterfaces sampleOsNoMapping 0x34325241 4 4
      ⟨10, []⟩).2.1 (by rfl),
   (allocBuffer_null .lp64 headerFormats sampleInterfaces sampleOsNoMapping 0x34325241 4 4
      ⟨10, []⟩).2.2.2 5 "/run/user/1000" (by rfl) (by rfl) (by decide) (by rfl)⟩

/-! ## Surface construction -/

/-- C4, as the code has it: constructing an on-screen Surface creates the xdg
shell surface (listener, title "WPE") and no legacy one when the xdg global is
advertised; the legacy shell surface (listener, toplevel, title "WPE") and no
xdg one when only the legacy shell global is advertised; neither when neither
global is advertised; a Surface that is not on-screen gets neither. -/
theorem Surface_new_shell_role (backend : Option Handle) (ifc : Interfaces) (pid : Nat)
    (w : World) :
    (∀ xdg, ifc.xdg = some xdg →
      (Surface.new backend ifc .OnScreen pid w).1.m_xdgSurface = some (w.nextId + 1) ∧
      (Surface.new backend ifc .OnScreen pid w).1.m_shellSurface = none ∧
      shellRoleRequests (w.since (Surface.new backend ifc .OnScreen pid w).2) =
        [.xdgShellGetXdgSurface xdg (some w.nextId) (w.nextId + 1),
         .xdgSurfaceAddListener (w.nextId + 1),
         .xdgSurfaceSetTitle (w.nextId + 1) "WPE"]) ∧
    (∀ shell, ifc.xdg = none → ifc.shell = some shell →
      (Surface.new backend ifc .OnScreen pid w).1.m_xdgSurface = none ∧
      (Surface.new backend ifc .OnScreen pid w).1.m_shellSurface = some (w.nextId + 1) ∧
      shellRoleRequests (w.since (Surface.new backend ifc .OnScreen pid w).2) =
        [.shellGetShellSurface shell (some w.nextId) (w.nextId + 1),
         .shellSurfaceAddListener (w.nextId + 1),
         .shellSurfaceSetToplevel (w.nextId + 1),
         .shellSurfaceSetTitle (w.nextId + 1) "WPE"]) ∧
    (ifc.xdg = none → ifc.shell = none →
      (Surface.new backend ifc .OnScreen pid w).1.m_xdgSurface = none ∧
      (Surface.new backend ifc .OnScreen pid w).1.m_shellSurface = none ∧
      shellRoleRequests (w.since (Surface.new backend ifc .OnScreen pid w).2) = []) ∧
    ((Surface.new backend ifc .OffScreen pid w).1.m_xdgSurface = none ∧
      (Surface.new backend ifc .OffScreen pid w).1.m_shellSurface = none ∧
      shellRoleRequests (w.since (Surface.new backend ifc .OffScreen pid w).2) = []) := by
  refine ⟨fun xdg hx => ?_, fun shell hx hs => ?_, fun hx hs => ?_, ?_⟩
  · cases hi : ifc.ivi_application <;>
      simp [Surface.new, Surface.newShellRole, Surface.newIviRole, hx, hi, World.since,
        World.emit, World.fresh, shellRoleRequests, Effect.isShellRoleRequest]
  · cases hi : ifc.ivi_application <;>
      simp [Surface.new, Surface.newShellRole, Surface.newIviRole, hx, hs, hi, World.since,
        World.emit, World.fresh, shellRoleRequests, Effect.isShellRoleRequest]
  · cases hi : ifc.ivi_application <;>
      simp [Surface.new, Surface.newShellRole, Surface.newIviRole, hx, hs, hi, World.since,
        World.emit, World.fresh, shellRoleRequests, Effect.isShellRoleRequest]
  · simp [Surface.new, World.since, World.emit, World.fresh, shellRoleRequests,
      Effect.isShellRoleRequest]

/-- C4 as stated fails: with neither the xdg nor the legacy shell global
advertised (only ivi), an on-screen Surface gets neither shell role object. -/
theorem Surface_new_no_shell_role :
    (Surface.new (some 7) ⟨some 1, none, none, some 4, some 5, some 6⟩ .OnScreen 100
      ⟨10, []⟩).1.m_xdgSurface = none ∧
    (Surface.new (some 7) ⟨some 1, none, none, some 4, some 5, some 6⟩ .OnScreen 100
      ⟨10, []⟩).1.m_shellSurface = none ∧
    shellRoleRequests (Surface.new (some 7) ⟨some 1, none, none, some 4, some 5, some 6⟩
      .OnScreen 100 ⟨10, []⟩).2.trace = [] := by
  decide

/-- C5, as the code has it: after construction the xdg and the legacy shell
surface are never both set, while the ivi surface is set exactly when the
Surface is on-screen and the ivi_application global is advertised, whatever the
other two are; so an on-screen Surface has one role object for its shell global
(if xdg or wl_shell is advertised) plus one for ivi (if advertised), and a
Surface that is not on-screen has none. -/
theorem Surface_new_roles (backend : Option Handle) (ifc : Interfaces) (t : SurfaceType)
    (pid : Nat) (w : World) :
    ¬ ((Surface.new backend ifc t pid w).1.m_xdgSurface.isSome ∧
       (Surface.new backend ifc t pid w).1.m_shellSurface.isSome) ∧
    ((Surface.new backend ifc t pid w).1.m_xdgSurface.isSome ↔
      t = .OnScreen ∧ ifc.xdg.isSome) ∧
    ((Surface.new backend ifc t pid w).1.m_shellSurface.isSome ↔
      t = .OnScreen ∧ ifc.xdg = none ∧ ifc.shell.isSome) ∧
    ((Surface.new backend ifc t pid w).1.m_iviSurface.isSome ↔
      t = .OnScreen ∧ ifc.ivi_application.isSome) ∧
    (Surface.new backend ifc t pid w).1.roleCount =
      (if t = .OnScreen then
        (if ifc.xdg.isSome ∨ ifc.shell.isSome then 1 else 0) +
          (if ifc.ivi_application.isSome then 1 else 0)
       else 0) := by
  cases t <;> cases hx : ifc.xdg <;> cases hs : ifc.shell <;> cases hi : ifc.ivi_application <;>
    simp [Surface.new, Surface.newShellRole, Surface.newIviRole, Surface.roleCount, hx, hs, hi,
      World.emit, World.fresh]

/-- C5 as stated fails: with every global advertised an on-screen Surface has
both an xdg surface and an ivi surface; with none advertised it has no role
object at all. -/
theorem Surface_new_roles_not_exclusive :
    (Surface.new (some 7) sampleInterfaces .OnScreen 100 ⟨10, []⟩).1.m_xdgSurface = some 11 ∧
    (Surface.new (some 7) sampleInterfaces .OnScreen 100 ⟨10, []⟩).1.m_iviSurface = some 12 ∧
    (Surface.new (some 7) sampleInterfaces .OnScreen 100 ⟨10, []⟩).1.roleCount = 2 ∧
    (Surface.new (some 7) ⟨some 1, none, none, none, some 5, some 6⟩ .OnScreen 100
      ⟨10, []⟩).1.roleCount = 0 := by
  decide

/-! ## Configure handlers -/

/-- A non-negative `int32_t` keeps its value when stored in a `uint32_t`. -/
theorem int32ToUInt32_of_nonneg (i : Int) (h0 : 0 ≤ i) (h1 : i < 2 ^ 31) :
    (int32ToUInt32 i : Int) = i := by
  unfold int32ToUInt32
  have hm : i % (2 ^ 32 : Int) = i := Int.emod_eq_of_lt h0 (by omega)
  rw [hm]
  exact Int.toNat_of_nonneg h0

/-- The three configure handlers, for every width and height.  The xdg_surface
and wl_shell_surface handlers: with both zero they dispatch nothing and leave
the remembered size alone (xdg only acknowledges); otherwise they dispatch
exactly one size-change with `(max 0 width, max 0 height)` and store the proposed
size in the `uint32_t` fields.  The ivi_surface handler has no zero test: it
dispatches one size-change and stores the size for every width and height.  A
stored non-negative size is the proposed size itself. -/
theorem configure_handlers (data : Surface.ResizingData) (surface : Handle) (width height : Int)
    (serial : Nat) (w : World) :
    (width = 0 ∧ height = 0 →
      g_xdgSurfaceListener.configure data surface width height serial w =
        (data, w.emit (.xdgSurfaceAckConfigure surface serial)) ∧
      g_shellSurfaceListener.configure data surface width height w = (data, w)) ∧
    (¬ (width = 0 ∧ height = 0) →
      g_xdgSurfaceListener.configure data surface width height serial w =
        (⟨data.backend, int32ToUInt32 width, int32ToUInt32 height⟩,
         (w.emit (.dispatchSetSize data.backend (max 0 width) (max 0 height))).emit
           (.xdgSurfaceAckConfigure surface serial)) ∧
      g_shellSurfaceListener.configure data surface width height w =
        (⟨data.backend, int32ToUInt32 width, int32ToUInt32 height⟩,
         w.emit (.dispatchSetSize data.backend (max 0 width) (max 0 height)))) ∧
    g_iviSurfaceListener.configure data width height w =
      (⟨data.backend, int32ToUInt32 width, int32ToUInt32 height⟩,
       w.emit (.dispatchSetSize data.backend (max 0 width) (max 0 height))) ∧
    (0 ≤ width → width < 2 ^ 31 → (int32ToUInt32 width : Int) = width) ∧
    (0 ≤ height → height < 2 ^ 31 → (int32ToUInt32 height : Int) = height) := by
  refine ⟨fun h => ?_, fun h => ?_, rfl, int32ToUInt32_of_nonneg width,
    int32ToUInt32_of_nonneg height⟩
  · obtain ⟨hw, hh⟩ := h
    subst hw; subst hh
    simp [g_xdgSurfaceListener.configure, g_shellSurfaceListener.configure]
  · have h1 : width ≠ 0 ∨ height ≠ 0 := by
      by_cases hw : width = 0
      · exact Or.inr (fun hh => h ⟨hw, hh⟩)
      · exact Or.inl hw
    simp [g_xdgSurfaceListener.configure, g_shellSurfaceListener.configure, resizeTo, h1]

/-- C6 at a configure of `(0, 0)` on a Surface that remembers 800 × 600: the
ivi_surface handler dispatches a size-change of `(0, 0)` and overwrites the
remembered size, where the claim has no dispatch and the size unchanged; at the
same event the wl_shell_surface handler does nothing and the xdg_surface handler
only acknowledges, both leaving the remembered size alone. -/
theorem iviSurfaceConfigure_zero_dispatches :
    g_iviSurfaceListener.configure ⟨some 7, 800, 600⟩ 0 0 ⟨10, []⟩ =
      (⟨some 7, 0, 0⟩, ⟨10, [.dispatchSetSize (some 7) 0 0]⟩) ∧
    g_shellSurfaceListener.configure ⟨some 7, 800, 600⟩ 20 0 0 ⟨10, []⟩ =
      (⟨some 7, 800, 600⟩, ⟨10, []⟩) ∧
    g_xdgSurfaceListener.configure ⟨some 7, 800, 600⟩ 20 0 0 33 ⟨10, []⟩ =
      (⟨some 7, 800, 600⟩, ⟨10, [.xdgSurfaceAckConfigure 20 33]⟩) := by
  decide

/-- C7: for every xdg_surface configure event, whatever the width, the height
and the serial (also for width = height = 0), the handler issues exactly one
`ack_configure`, with the serial of the event, as its last call, after the
size dispatch if there is one; the wl_shell_surface and ivi_surface configure
handlers issue no acknowledgment. -/
theorem configure_ack (data : Surface.ResizingData) (surface : Handle) (width height : Int)
    (serial : Nat) (w : World) :
    ackConfigures (w.since (g_xdgSurfaceListener.configure data surface width height serial w).2) =
      [.xdgSurfaceAckConfigure surface serial] ∧
    (w.since (g_xdgSurfaceListener.configure data surface width height serial w).2).getLast? =
      some (.xdgSurfaceAckConfigure surface serial) ∧
    (w.since (g_xdgSurfaceListener.configure data surface width height serial w).2 =
        [.xdgSurfaceAckConfigure surface serial] ∨
      w.since (g_xdgSurfaceListener.configure data surface width height serial w).2 =
        [.dispatchSetSize data.backend (max 0 width) (max 0 height),
         .xdgSurfaceAckConfigure surface serial]) ∧
    ackConfigures (w.since (g_shellSurfaceListener.configure data surface width height w).2) =
      [] ∧
    ackConfigures (w.since (g_iviSurfaceListener.configure data width height w).2) = [] := by
  by_cases h : width ≠ 0 ∨ height ≠ 0
  · simp [g_xdgSurfaceListener.configure, g_shellSurfaceListener.configure,
      g_iviSurfaceListener.configure, resizeTo, h,
      World.since, World.emit, ackConfigures, Effect.isAckConfigure]
  · simp [g_xdgSurfaceListener.configure, g_shellSurfaceListener.configure,
      g_iviSurfaceListener.configure, resizeTo, h,
      World.since, World.emit, ackConfigures, Effect.isAckConfigure]

/-! ## Frame callbacks of a Surface -/

/-- The live callbacks of a trace in two parts. -/
theorem liveCallbacksFrom_append (live : List Handle) (t t1 : List Effect) :
    liveCallbacksFrom live (t ++ t1) = liveCallbacksFrom (liveCallbacksFrom live t) t1 := by
  induction t generalizing live with
  | nil => rfl
  | cons e t ih => cases e <;> simp [liveCallbacksFrom, ih]

/-- The first call of a trace taken on its own. -/
theorem liveCallbacksFrom_cons (live : List Handle) (e : Effect) (t : List Effect) :
    liveCallbacksFrom live (e :: t) = liveCallbacksFrom (liveCallbacksFrom live [e]) t :=
  liveCallbacksFrom_append live [e] t

/-- A trace with at most one live callback at every point starts with at most
one. -/
theorem atMostOneLiveFrom_start (live : List Handle) (t : List Effect)
    (h : atMostOneLiveFrom live t) : live.length ≤ 1 := by
  cases t with
  | nil => exact h
  | cons e t => exact h.1

/-- At most one live callback at every point of a trace in two parts. -/
theorem atMostOneLiveFrom_append (live : List Handle) (t t1 : List Effect) :
    atMostOneLiveFrom live (t ++ t1) ↔
      atMostOneLiveFrom live t ∧ atMostOneLiveFrom (liveCallbacksFrom live t) t1 := by
  induction t generalizing live with
  | nil =>
    constructor
    · intro h
      exact ⟨atMostOneLiveFrom_start live t1 h, h⟩
    · intro h
      exact h.2
  | cons e t ih =>
    rw [liveCallbacksFrom_cons live e t]
    show live.length ≤ 1 ∧ atMostOneLiveFrom (liveCallbacksFrom live [e]) (t ++ t1) ↔
      (live.length ≤ 1 ∧ atMostOneLiveFrom (liveCallbacksFrom live [e]) t) ∧
        atMostOneLiveFrom (liveCallbacksFrom (liveCallbacksFrom live [e]) t) t1
    rw [ih, and_assoc]

/-- At most one live callback at every point bounds the live callbacks of every
initial part of the trace. -/
theorem atMostOneLiveFrom_take (live : List Handle) (t : List Effect)
    (h : atMostOneLiveFrom live t) (k : Nat) :
    (liveCallbacksFrom live (t.take k)).length ≤ 1 := by
  induction t generalizing live k with
  | nil => simpa [liveCallbacksFrom] using h
  | cons e t ih =>
    cases k with
    | zero => simpa [liveCallbacksFrom] using h.1
    | succ k =>
      rw [List.take_succ_cons, liveCallbacksFrom_cons]
      exact ih _ h.2 k

/-- A freshly constructed Surface satisfies the invariant. -/
theorem SurfaceInv_new (backend : Option Handle) (ifc : Interfaces) (t : SurfaceType)
    (pid : Nat) (n : Handle) : SurfaceInv (Surface.new backend ifc t pid ⟨n, []⟩) := by
  cases t <;> cases hx : ifc.xdg <;> cases hs : ifc.shell <;> cases hi : ifc.ivi_application <;>
    simp [SurfaceInv, Surface.new, Surface.newShellRole, Surface.newIviRole, hx, hs, hi,
      World.emit, World.fresh, liveCallbacks, liveCallbacksFrom, destroyCount, atMostOneLiveFrom]

/-- The destructions of a trace in two parts. -/
theorem destroyCount_append (c : Handle) (t t1 : List Effect) :
    destroyCount c (t ++ t1) = destroyCount c t + destroyCount c t1 := by
  induction t with
  | nil => simp [destroyCount]
  | cons e t ih => cases e <;> simp [destroyCount, ih, Nat.add_assoc]

/-- What a commit does: the calls it makes, in order, and the new callback. -/
theorem ViewBackend.Surface.onSurfaceCommit_eq (s : Surface) (damage : Option Rect) (w : World) :
    Surface.onSurfaceCommit s damage w =
      ({ s with m_callback := some w.nextId },
       ⟨w.nextId + 1,
        w.trace ++ (s.m_callback.toList.map Effect.callbackDestroy ++
          [.surfaceFrame s.m_surface w.nextId, .callbackAddListener w.nextId] ++
          damage.toList.map (fun d => Effect.surfaceDamage s.m_surface d.X d.Y d.width d.height) ++
          [.surfaceCommit s.m_surface])⟩) := by
  cases hc : s.m_callback <;> cases damage <;>
    simp [Surface.onSurfaceCommit, hc, World.emitIf, World.emit, World.fresh]

/-- A commit keeps the invariant. -/
theorem SurfaceInv_commit (s : Surface) (w : World) (damage : Option Rect)
    (h : SurfaceInv (s, w)) : SurfaceInv (Surface.onSurfaceCommit s damage w) := by
  obtain ⟨h1, h2, h3, h4, h5⟩ := h
  simp only [liveCallbacks] at h1 h2 h3 h4
  rw [Surface.onSurfaceCommit_eq]
  simp only [SurfaceInv, liveCallbacks, liveCallbacksFrom_append, destroyCount_append,
    atMostOneLiveFrom_append, h1]
  cases hc : s.m_callback with
  | none =>
    refine ⟨?_, ?_, ?_, ?_, h5, ?_⟩
    · cases damage <;> simp [liveCallbacksFrom]
    · intro c hcc
      have hcn : w.nextId = c := by simpa using hcc
      subst hcn
      have := h4 w.nextId (le_refl _)
      cases damage <;> simp [destroyCount, this]
    · intro c
      have := h3 c
      cases damage <;> simpa [destroyCount] using this
    · intro c hle
      have := h4 c (Nat.le_of_succ_le hle)
      cases damage <;> simp [destroyCount, this]
    · cases damage <;> simp [atMostOneLiveFrom, liveCallbacksFrom]
  | some c0 =>
    obtain ⟨hlt, hz⟩ := h2 c0 hc
    refine ⟨?_, ?_, ?_, ?_, h5, ?_⟩
    · cases damage <;> simp [liveCallbacksFrom]
    · intro c hcc
      have hcn : w.nextId = c := by simpa using hcc
      subst hcn
      have h40 := h4 w.nextId (le_refl _)
      have hne : c0 ≠ w.nextId := Nat.ne_of_lt hlt
      cases damage <;> simp [destroyCount, h40, hne]
    · intro c
      have := h3 c
      by_cases hcc : c0 = c
      · subst hcc
        cases damage <;> simp [destroyCount, hz]
      · cases damage <;> simpa [destroyCount, hcc] using this
    · intro c hle
      have h40 := h4 c (Nat.le_of_succ_le hle)
      have hne : c0 ≠ c := Nat.ne_of_lt (Nat.lt_of_lt_of_le hlt (Nat.le_of_succ_le hle))
      cases damage <;> simp [destroyCount, h40, hne]
    · cases damage <;> simp [atMostOneLiveFrom, liveCallbacksFrom]

/-- A frame-done event keeps the invariant and is never undefined: it reaches
the listener only for a live callback, and that is `m_callback`. -/
theorem SurfaceInv_frameDone (s : Surface) (w : World) (callback : Handle) (callback_data : Nat)
    (h : SurfaceInv (s, w)) :
    ∃ sw1, Surface.step (s, w) (.frameDone callback callback_data) = some sw1 ∧
      SurfaceInv sw1 := by
  by_cases hl : callback ∈ liveCallbacks w.trace
  · obtain ⟨h1, h2, h3, h4, h5⟩ := h
    simp only [liveCallbacks] at h1 h2 h3 h4 hl
    cases hc : s.m_callback with
    | none => simp [h1, hc] at hl
    | some c0 =>
      obtain ⟨hlt, hz⟩ := h2 c0 hc
      simp only [hc, Option.toList] at h1
      refine ⟨({ s with m_callback := none },
        (w.emit (.callbackDestroy c0)).emit (.frameComplete callback_data)), ?_, ?_⟩
      · simp [Surface.step, liveCallbacks, hl, Surface.frameCallbackListener.done, hc]
      · simp only [SurfaceInv, liveCallbacks, World.emit, List.append_assoc,
          liveCallbacksFrom_append, destroyCount_append, atMostOneLiveFrom_append, h1]
        refine ⟨by simp [liveCallbacksFrom], by simp, fun c => ?_, fun c hle => ?_, h5,
          by simp [atMostOneLiveFrom, liveCallbacksFrom]⟩
        · have := h3 c
          by_cases hcc : c0 = c
          · subst hcc
            simp [destroyCount, hz]
          · simpa [destroyCount, hcc] using this
        · have h40 := h4 c hle
          have hne : c0 ≠ c := Nat.ne_of_lt (Nat.lt_of_lt_of_le hlt hle)
          simp [destroyCount, h40, hne]
  · exact ⟨(s, w), by simp [Surface.step, hl], h⟩

/-- Every event keeps the invariant and is defined. -/
theorem SurfaceInv_step (sw : Surface × World) (e : SurfaceEvent) (h : SurfaceInv sw) :
    ∃ sw1, Surface.step sw e = some sw1 ∧ SurfaceInv sw1 := by
  obtain ⟨s, w⟩ := sw
  cases e with
  | commit damage => exact ⟨_, rfl, SurfaceInv_commit s w damage h⟩
  | frameDone callback callback_data => exact SurfaceInv_frameDone s w callback callback_data h

/-- Every sequence of events keeps the invariant and is defined. -/
theorem SurfaceInv_run (es : List SurfaceEvent) (sw : Surface × World) (h : SurfaceInv sw) :
    ∃ sw1, Surface.run sw es = some sw1 ∧ SurfaceInv sw1 := by
  induction es generalizing sw with
  | nil => exact ⟨sw, rfl, h⟩
  | cons e es ih =>
    obtain ⟨sw1, hs, hi⟩ := SurfaceInv_step sw e h
    obtain ⟨sw2, hr, hi2⟩ := ih sw1 hi
    exact ⟨sw2, by simp [Surface.run, hs, hr], hi2⟩

/-- C8: for every sequence of commits and frame-done events on a freshly
constructed Surface, the run is defined, and afterwards (hence after every
prefix of the sequence) the live frame callbacks are exactly `m_callback`, so at
most one is live and `m_callback` is non-null exactly when one is; at most one
was live after each single call of the trace; and no callback was destroyed
twice.  A commit destroys the outstanding callback, if
any, before it requests the new one; frame-done destroys the callback and
clears `m_callback` before it notifies `frameComplete` with the timestamp. -/
theorem Surface_frame_callbacks (backend : Option Handle) (ifc : Interfaces) (t : SurfaceType)
    (pid : Nat) (n : Handle) (es : List SurfaceEvent) :
    (∃ s w, Surface.run (Surface.new backend ifc t pid ⟨n, []⟩) es = some (s, w) ∧
      liveCallbacks w.trace = s.m_callback.toList ∧
      (liveCallbacks w.trace).length ≤ 1 ∧
      (s.m_callback.isSome ↔ liveCallbacks w.trace ≠ []) ∧
      (∀ k, (liveCallbacks (w.trace.take k)).length ≤ 1) ∧
      ∀ c, destroyCount c w.trace ≤ 1) ∧
    (∀ (s : Surface) (damage : Option Rect) (w : World),
      Surface.onSurfaceCommit s damage w =
        ({ s with m_callback := some w.nextId },
         ⟨w.nextId + 1,
          w.trace ++ (s.m_callback.toList.map Effect.callbackDestroy ++
            [.surfaceFrame s.m_surface w.nextId, .callbackAddListener w.nextId] ++
            damage.toList.map
              (fun d => Effect.surfaceDamage s.m_surface d.X d.Y d.width d.height) ++
            [.surfaceCommit s.m_surface])⟩)) ∧
    (∀ (s : Surface) (c : Handle) (callback_data : Nat) (w : World), s.m_callback = some c →
      Surface.frameCallbackListener.done s callback_data w =
        some ({ s with m_callback := none },
              ⟨w.nextId, w.trace ++ [.callbackDestroy c, .frameComplete callback_data]⟩)) := by
  refine ⟨?_, Surface.onSurfaceCommit_eq, fun s c cd w hc => ?_⟩
  · obtain ⟨⟨s, w⟩, hr, h1, -, h3, -, h5⟩ :=
      SurfaceInv_run es _ (SurfaceInv_new backend ifc t pid n)
    refine ⟨s, w, hr, h1, ?_, ?_, atMostOneLiveFrom_take [] w.trace h5, h3⟩
    · simp only at h1
      rw [h1]
      cases s.m_callback <;> simp
    · simp only at h1
      rw [h1]
      cases s.m_callback <;> simp
  · simp [Surface.frameCallbackListener.done, hc, World.emit]

/-- C8 on two consecutive commits with nothing in between, on an on-screen
Surface with every global advertised: the second commit destroys callback 13
before it requests callback 14, which is then the only live one. -/
theorem Surface_frame_callbacks_witness :
    (Surface.run (Surface.new (some 7) sampleInterfaces .OnScreen 100 ⟨10, []⟩)
        [.commit none, .commit none]).map
      (fun sw => (sw.1.m_callback, sw.2.trace.drop 7, liveCallbacks sw.2.trace)) =
      some (some 14,
        [.surfaceFrame (some 10) 13, .callbackAddListener 13, .surfaceCommit (some 10),
         .callbackDestroy 13,
         .surfaceFrame (some 10) 14, .callbackAddListener 14, .surfaceCommit (some 10)],
        [14]) ∧
    ∃ s w, Surface.run
        (Surface.new (some 7) sampleInterfaces .OnScreen 100 ⟨10, []⟩)
        [.commit none, .commit none] = some (s, w) ∧
      liveCallbacks w.trace = s.m_callback.toList ∧
      (∀ k, (liveCallbacks (w.trace.take k)).length ≤ 1) ∧
      ∀ c, destroyCount c w.trace ≤ 1 := by
  refine ⟨by decide, ?_⟩
  obtain ⟨s, w, h1, h2, -, -, h5, h6⟩ :=
    (Surface_frame_callbacks (some 7) sampleInterfaces .OnScreen 100 10
      [.commit none, .commit none]).1
  exact ⟨s, w, h1, h2, h5, h6⟩

/-! ## Popup -/

/-- C9: `Popup::attachBuffer` with a buffer destroys the prior frame callback
if there is one, then requests a new frame callback, adds its listener,
attaches the buffer at (0, 0), damages (0, 0, buffer width, buffer height) and
commits, in this order, and keeps the new callback; with a null buffer it
destroys the prior frame callback if there is one, then attaches null at (0, 0)
and commits: no damage, no frame-callback request. -/
theorem Popup_attachBuffer_effects (p : Popup) (w : World) :
    (∀ b : Buffer, Popup.attachBuffer p (some b) w =
      ({ p with m_frameCallback := some w.nextId },
       ⟨w.nextId + 1,
        w.trace ++ (p.m_frameCallback.toList.map Effect.callbackDestroy ++
          [.surfaceFrame p.m_surface w.nextId,
           .callbackAddListener w.nextId,
           .surfaceAttach p.m_surface (some b.m_buffer) 0 0,
           .surfaceDamage p.m_surface 0 0 b.m_width b.m_height,
           .surfaceCommit p.m_surface])⟩)) ∧
    Popup.attachBuffer p none w =
      (p, ⟨w.nextId,
        w.trace ++ (p.m_frameCallback.toList.map Effect.callbackDestroy ++
          [.surfaceAttach p.m_surface none 0 0, .surfaceCommit p.m_surface])⟩) := by
  constructor
  · intro b
    cases hc : p.m_frameCallback <;>
      simp [Popup.attachBuffer, hc, World.emitIf, World.emit, World.fresh]
  · cases hc : p.m_frameCallback <;>
      simp [Popup.attachBuffer, hc, World.emitIf, World.emit, World.fresh]

/-- What the destructor of a Popup does: the calls it makes, in order. -/
theorem Popup.destroy_eq (p : Popup) (w : World) :
    Popup.destroy p w =
      (⟨p.m_popup, none, none, none, none⟩,
       ⟨w.nextId,
        w.trace ++ (p.m_xdgPopup.toList.map Effect.xdgPopupDestroy ++
          p.m_shellSurface.toList.map Effect.shellSurfaceDestroy ++
          (match p.m_surface with
            | some s => [.unregisterInputClient (some s), .surfaceDestroy s]
            | none => []) ++
          p.m_frameCallback.toList.map Effect.callbackDestroy)⟩) := by
  cases hx : p.m_xdgPopup <;> cases hs : p.m_shellSurface <;> cases hm : p.m_surface <;>
    cases hc : p.m_frameCallback <;>
    simp [Popup.destroy, hx, hs, hm, hc, World.emitIf, World.emit]

/-- C10: for a Popup that has the object of a popup protocol (as the
constructor gives it: xdg when the xdg global is advertised, legacy shell when
only the legacy shell global is), the `popup_done` handler of that protocol
destroys the object, clears its handle and dispatches the embedder's dismissed
callback, these two calls and nothing else; destroying the Popup afterwards,
whenever that happens, dispatches no dismissed notification and does not
destroy an object of that protocol. -/
theorem Popup_dismissed_once (p : Popup) (w : World) (proto : PopupProtocol) (h : Handle)
    (hp : p.protocolObject proto = some h) :
    (∃ p1 w1, p.popupDone w proto = some (p1, w1) ∧
      w.since w1 = [proto.destroyEffect h, .popupDispatchDismissed p.m_popup] ∧
      p1.protocolObject proto = none ∧
      p1.m_popup = p.m_popup ∧
      (∀ (w2 : World) (q : Handle),
        Effect.popupDispatchDismissed q ∉ w2.since (Popup.destroy p1 w2).2) ∧
      (∀ (w2 : World) (g : Handle),
        proto.destroyEffect g ∉ w2.since (Popup.destroy p1 w2).2)) ∧
    (∀ (popup : Handle) (parent : Option Handle) (ifc : Interfaces) (serial : Nat) (x y : Int)
        (w0 : World),
      (ifc.xdg.isSome →
        (Popup.new popup parent ifc serial x y w0).1.protocolObject .xdg =
          some (w0.nextId + 1)) ∧
      (ifc.xdg = none → ifc.shell.isSome →
        (Popup.new popup parent ifc serial x y w0).1.protocolObject .shell =
          some (w0.nextId + 1))) := by
  constructor
  · cases proto with
    | xdg =>
      have hx : p.m_xdgPopup = some h := hp
      refine ⟨{ p with m_xdgPopup := none },
        (w.emit (.xdgPopupDestroy h)).emit (.popupDispatchDismissed p.m_popup), ?_, ?_, rfl,
        rfl, ?_, ?_⟩
      · simp [Popup.popupDone, Popup.s_xdgPopupListener.popup_done, hx]
      · simp [World.since, World.emit, PopupProtocol.destroyEffect]
      · intro w2 q
        rw [Popup.destroy_eq]
        cases hs : p.m_shellSurface <;> cases hm : p.m_surface <;>
          cases hc : p.m_frameCallback <;> simp [World.since, hs, hm, hc]
      · intro w2 g
        rw [Popup.destroy_eq]
        cases hs : p.m_shellSurface <;> cases hm : p.m_surface <;>
          cases hc : p.m_frameCallback <;>
          simp [World.since, hs, hm, hc, PopupProtocol.destroyEffect]
    | shell =>
      have hx : p.m_shellSurface = some h := hp
      refine ⟨{ p with m_shellSurface := none },
        (w.emit (.shellSurfaceDestroy h)).emit (.popupDispatchDismissed p.m_popup), ?_, ?_, rfl,
        rfl, ?_, ?_⟩
      · simp [Popup.popupDone, Popup.s_shellSurfaceListener.popup_done, hx]
      · simp [World.since, World.emit, PopupProtocol.destroyEffect]
      · intro w2 q
        rw [Popup.destroy_eq]
        cases hs : p.m_xdgPopup <;> cases hm : p.m_surface <;>
          cases hc : p.m_frameCallback <;> simp [World.since, hs, hm, hc]
      · intro w2 g
        rw [Popup.destroy_eq]
        cases hs : p.m_xdgPopup <;> cases hm : p.m_surface <;>
          cases hc : p.m_frameCallback <;>
          simp [World.since, hs, hm, hc, PopupProtocol.destroyEffect]
  · intro popup parent ifc serial x y w0
    constructor
    · intro hx
      cases hxx : ifc.xdg with
      | none => simp [hxx] at hx
      | some g => simp [Popup.new, hxx, Popup.protocolObject, World.fresh, World.emit]
    · intro hx hs
      cases hss : ifc.shell with
      | none => simp [hss] at hs
      | some g => simp [Popup.new, hx, hss, Popup.protocolObject, World.fresh, World.emit]

/-- C10 on constructed Popups: one built with every global advertised has an xdg
popup, one built without the xdg global has a legacy shell popup, and for both
the theorem applies. -/
theorem Popup_dismissed_once_witness :
    ((Popup.new 9 (some 3) sampleInterfaces 42 5 5 ⟨10, []⟩).1.protocolObject .xdg = some 11 ∧
      ∃ p1 w1,
        (Popup.new 9 (some 3) sampleInterfaces 42 5 5 ⟨10, []⟩).1.popupDone
          (Popup.new 9 (some 3) sampleInterfaces 42 5 5 ⟨10, []⟩).2 .xdg = some (p1, w1) ∧
        (Popup.new 9 (some 3) sampleInterfaces 42 5 5 ⟨10, []⟩).2.since w1 =
          [.xdgPopupDestroy 11, .popupDispatchDismissed 9] ∧
        p1.m_xdgPopup = none) ∧
    ((Popup.new 9 (some 3) ⟨some 1, none, some 3, none, some 5, some 6⟩ 42 5 5
        ⟨10, []⟩).1.protocolObject .shell = some 11 ∧
      ∃ p1 w1,
        (Popup.new 9 (some 3) ⟨some 1, none, some 3, none, some 5, some 6⟩ 42 5 5
          ⟨10, []⟩).1.popupDone
          (Popup.new 9 (some 3) ⟨some 1, none, some 3, none, some 5, some 6⟩ 42 5 5
            ⟨10, []⟩).2 .shell = some (p1, w1) ∧
        (Popup.new 9 (some 3) ⟨some 1, none, some 3, none, some 5, some 6⟩ 42 5 5
          ⟨10, []⟩).2.since w1 = [.shellSurfaceDestroy 11, .popupDispatchDismissed 9] ∧
        p1.m_shellSurface = none) := by
  refine ⟨⟨by decide, ?_⟩, ⟨by decide, ?_⟩⟩
  · obtain ⟨p1, w1, h1, h2, h3, -⟩ :=
      (Popup_dismissed_once (Popup.new 9 (some 3) sampleInterfaces 42 5 5 ⟨10, []⟩).1
        (Popup.new 9 (some 3) sampleInterfaces 42 5 5 ⟨10, []⟩).2 .xdg 11 (by decide)).1
    exact ⟨p1, w1, h1, h2, h3⟩
  · obtain ⟨p1, w1, h1, h2, h3, -⟩ :=
      (Popup_dismissed_once
        (Popup.new 9 (some 3) ⟨some 1, none, some 3, none, some 5, some 6⟩ 42 5 5
          ⟨10, []⟩).1
        (Popup.new 9 (some 3) ⟨some 1, none, some 3, none, some 5, some 6⟩ 42 5 5
          ⟨10, []⟩).2
        .shell 11 (by decide)).1
    exact ⟨p1, w1, h1, h2, h3⟩

/-! ## DRM proxy -/

/-- C11: each of the `create_buffer`, `create_planar_buffer` and
`create_prime_buffer` handlers first creates the downstream `wl_buffer`
resource.  If that fails, the handler posts no-memory on the requesting resource
and makes no upstream `wl_drm` call.  If it succeeds, the handler makes exactly
one upstream create call with the arguments of the request unchanged, stores the
upstream buffer as the user data of the downstream resource and adds the release
listener with that same downstream resource as its data; the release listener
sends `release` to the resource it was added with. -/
theorem drm_create_handlers (created : Option Handle) (d : drm) (client resource : Handle)
    (id name : Nat) (primeName width height : Int) (stride format : Nat)
    (offset0 stride0 offset1 stride1 offset2 stride2 : Int) (w : World) :
    (created = none →
      w.since (ViewBackend.g_drmImplementation.create_buffer created d client resource id name
          width height stride format w) =
        [.drm (.resourceCreateBuffer client 1 id none), .drm (.resourcePostNoMemory resource)] ∧
      w.since (ViewBackend.g_drmImplementation.create_planar_buffer created d client resource id
          name width height format offset0 stride0 offset1 stride1 offset2 stride2 w) =
        [.drm (.resourceCreateBuffer client 1 id none), .drm (.resourcePostNoMemory resource)] ∧
      w.since (ViewBackend.g_drmImplementation.create_prime_buffer created d client resource id
          primeName width height format offset0 stride0 offset1 stride1 offset2 stride2 w) =
        [.drm (.resourceCreateBuffer client 1 id none), .drm (.resourcePostNoMemory resource)]) ∧
    (∀ buffer_resource, created = some buffer_resource →
      w.since (ViewBackend.g_drmImplementation.create_buffer created d client resource id name
          width height stride format w) =
        [.drm (.resourceCreateBuffer client 1 id (some buffer_resource)),
         .drm (.drmCreateBuffer d.drm name width height stride format w.nextId),
         .drm (.resourceSetBufferImplementation buffer_resource w.nextId),
         .drm (.bufferAddListener w.nextId buffer_resource)] ∧
      w.since (ViewBackend.g_drmImplementation.create_planar_buffer created d client resource id
          name width height format offset0 stride0 offset1 stride1 offset2 stride2 w) =
        [.drm (.resourceCreateBuffer client 1 id (some buffer_resource)),
         .drm (.drmCreatePlanarBuffer d.drm name width height format
            offset0 stride0 offset1 stride1 offset2 stride2 w.nextId),
         .drm (.resourceSetBufferImplementation buffer_resource w.nextId),
         .drm (.bufferAddListener w.nextId buffer_resource)] ∧
      w.since (ViewBackend.g_drmImplementation.create_prime_buffer created d client resource id
          primeName width height format offset0 stride0 offset1 stride1 offset2 stride2 w) =
        [.drm (.resourceCreateBuffer client 1 id (some buffer_resource)),
         .drm (.drmCreatePrimeBuffer d.drm primeName width height format
            offset0 stride0 offset1 stride1 offset2 stride2 w.nextId),
         .drm (.resourceSetBufferImplementation buffer_resource w.nextId),
         .drm (.bufferAddListener w.nextId buffer_resource)]) ∧
    (drmCreates (w.since (ViewBackend.g_drmImplementation.create_buffer created d client
        resource id name width height stride format w)) =
      if created.isSome then
        [.drm (.drmCreateBuffer d.drm name width height stride format w.nextId)] else []) ∧
    (drmCreates (w.since (ViewBackend.g_drmImplementation.create_planar_buffer created d client
        resource id name width height format offset0 stride0 offset1 stride1 offset2 stride2
        w)) =
      if created.isSome then
        [.drm (.drmCreatePlanarBuffer d.drm name width height format
          offset0 stride0 offset1 stride1 offset2 stride2 w.nextId)] else []) ∧
    (drmCreates (w.since (ViewBackend.g_drmImplementation.create_prime_buffer created d client
        resource id primeName width height format offset0 stride0 offset1 stride1 offset2
        stride2 w)) =
      if created.isSome then
        [.drm (.drmCreatePrimeBuffer d.drm primeName width height format
          offset0 stride0 offset1 stride1 offset2 stride2 w.nextId)] else []) ∧
    (∀ (data buffer : Handle) (w0 : World),
      w0.since (ViewBackend.g_drmBufferListener.release data buffer w0) =
        [.drm (.bufferSendRelease data)]) := by
  refine ⟨fun hc => ?_, fun r hc => ?_, ?_, ?_, ?_, fun data buffer w0 => ?_⟩
  · subst hc
    simp [ViewBackend.g_drmImplementation.create_buffer,
      ViewBackend.g_drmImplementation.create_planar_buffer,
      ViewBackend.g_drmImplementation.create_prime_buffer, World.since, World.emit]
  · subst hc
    simp [ViewBackend.g_drmImplementation.create_buffer,
      ViewBackend.g_drmImplementation.create_planar_buffer,
      ViewBackend.g_drmImplementation.create_prime_buffer,
      ViewBackend.g_drmImplementation.wrap, World.since, World.emit, World.fresh]
  · cases created <;>
      simp [ViewBackend.g_drmImplementation.create_buffer, ViewBackend.g_drmImplementation.wrap,
        World.since, World.emit, World.fresh, drmCreates, Effect.isDrmCreate]
  · cases created <;>
      simp [ViewBackend.g_drmImplementation.create_planar_buffer,
        ViewBackend.g_drmImplementation.wrap, World.since, World.emit, World.fresh, drmCreates,
        Effect.isDrmCreate]
  · cases created <;>
      simp [ViewBackend.g_drmImplementation.create_prime_buffer,
        ViewBackend.g_drmImplementation.wrap, World.since, World.emit, World.fresh, drmCreates,
        Effect.isDrmCreate]
  · simp [ViewBackend.g_drmBufferListener.release, World.since, World.emit]

/-! ## Buffer information -/

/-- C12: for a successful `allocBuffer(format, width, height)` on unsigned
32-bit arguments, `get_info` reports the format that was requested (the
embedder's number, while the upstream buffer was created with the remapped
`wl_shm` format), the requested width and height, the stride computed at
allocation, which is the stride of the upstream create request, and the pointer
that `mmap` returned. -/
theorem get_info_reports_request (abi : Abi) (fc : FormatConstants) (ifc : Interfaces) (os : Os)
    (format width height : Nat) (w : World) (b : Buffer) (w1 : World)
    (h : allocBuffer abi fc ifc os format width height w = (some b, w1))
    (hf : format < 2 ^ 32) (hw : width < 2 ^ 32) (hh : height < 2 ^ 32) :
    (Buffer.interface.get_info b).format = format ∧
    (Buffer.interface.get_info b).width = width ∧
    (Buffer.interface.get_info b).height = height ∧
    (Buffer.interface.get_info b).stride = (width * 4) % 2 ^ 32 ∧
    (∃ pool buffer, Effect.shmPoolCreateBuffer pool 0 width height
        (Buffer.interface.get_info b).stride (wlFormat fc format) buffer ∈ w.since w1) ∧
    (∃ path, os.getenv "XDG_RUNTIME_DIR" = some path ∧
      os.mmap (toSizeT abi (height * toSizeT abi (toUInt32 (width * 4))))
        (os.mkostemp (path ++ temp_file_template)).1 =
        some (Buffer.interface.get_info b).data) := by
  obtain ⟨shm, path, d, -, henv, -, hmap, hb, htr⟩ :=
    allocBuffer_some abi fc ifc os format width height w b w1 h
  have hst : toUInt32 (toSizeT abi (toUInt32 (width * 4))) = (width * 4) % 2 ^ 32 :=
    (stride_size_exact abi width height).1
  have hst2 : toSizeT abi (toUInt32 (width * 4)) = (width * 4) % 2 ^ 32 := by
    have h32 : (width * 4) % 2 ^ 32 < 2 ^ 32 := Nat.mod_lt _ (by norm_num)
    have e : toUInt32 (toSizeT abi (toUInt32 (width * 4))) =
        toSizeT abi (toUInt32 (width * 4)) := by
      unfold toUInt32
      apply Nat.mod_eq_of_lt
      unfold toSizeT
      have hle : (width * 4 % 2 ^ 32) % 2 ^ abi.sizeBits ≤ width * 4 % 2 ^ 32 :=
        Nat.mod_le _ _
      omega
    rw [← e]; exact hst
  refine ⟨?_, ?_, ?_, ?_, ⟨w.nextId, w.nextId + 1, ?_⟩, ⟨path, henv, ?_⟩⟩
  · rw [hb]; exact Nat.mod_eq_of_lt hf
  · rw [hb]; exact Nat.mod_eq_of_lt hw
  · rw [hb]; exact Nat.mod_eq_of_lt hh
  · rw [hb]; exact hst
  · rw [World.since_append w w1 _ htr, hb]
    show Effect.shmPoolCreateBuffer w.nextId 0 width height
      (toUInt32 (toSizeT abi (toUInt32 (width * 4)))) (wlFormat fc format) (w.nextId + 1) ∈ _
    rw [hst, ← hst2]
    simp
  · rw [hmap, hb]; rfl

/-- C12 at the header values: an ARGB8888 request of 4 × 4 pixels reports the
FourCC code, 4, 4, stride 16 and the mapped pointer, while the upstream buffer
was created with the `wl_shm` format 0. -/
theorem get_info_reports_request_witness :
    Buffer.interface.get_info sampleBuffer = ⟨0x34325241, 4, 4, 16, 4096⟩ ∧
    ((Buffer.interface.get_info sampleBuffer).format = 0x34325241 ∧
      (Buffer.interface.get_info sampleBuffer).width = 4 ∧
      (Buffer.interface.get_info sampleBuffer).height = 4 ∧
      (Buffer.interface.get_info sampleBuffer).stride = (4 * 4) % 2 ^ 32) :=
  ⟨by decide,
   (get_info_reports_request .lp64 headerFormats sampleInterfaces sampleOs 0x34325241 4 4
      ⟨10, []⟩ sampleBuffer _ (by rfl) (by decide) (by decide) (by decide)).1,
   (get_info_reports_request .lp64 headerFormats sampleInterfaces sampleOs 0x34325241 4 4
      ⟨10, []⟩ sampleBuffer _ (by rfl) (by decide) (by decide) (by decide)).2.1,
   (get_info_reports_request .lp64 headerFormats sampleInterfaces sampleOs 0x34325241 4 4
      ⟨10, []⟩ sampleBuffer _ (by rfl) (by decide) (by decide) (by decide)).2.2.1,
   (get_info_reports_request .lp64 headerFormats sampleInterfaces sampleOs 0x34325241 4 4
      ⟨10, []⟩ sampleBuffer _ (by rfl) (by decide) (by decide) (by decide)).2.2.2.1⟩

/-! ## Destruction of a Surface -/

/-- C13: destroying a Surface in any state makes these calls in this order, each
only if its object is set: unregister the input client (only if the Surface is
on-screen), destroy the ivi surface, the xdg surface, the legacy shell surface,
the pending frame callback, the base `wl_surface`; all five pointers are null
afterwards.  A Surface that was constructed and never committed issues no
callback destruction, and its last call destroys the base surface. -/
theorem Surface_destroy_order (s : Surface) (w : World) :
    Surface.destroy s w =
      ({ s with m_iviSurface := none, m_xdgSurface := none, m_shellSurface := none,
                m_callback := none, m_surface := none },
       ⟨w.nextId,
        w.trace ++ ((if s.type = .OnScreen then [.unregisterInputClient s.m_surface] else []) ++
          s.m_iviSurface.toList.map Effect.iviSurfaceDestroy ++
          s.m_xdgSurface.toList.map Effect.xdgSurfaceDestroy ++
          s.m_shellSurface.toList.map Effect.shellSurfaceDestroy ++
          s.m_callback.toList.map Effect.callbackDestroy ++
          s.m_surface.toList.map Effect.surfaceDestroy)⟩) ∧
    (∀ (backend : Option Handle) (ifc : Interfaces) (t : SurfaceType) (pid : Nat) (w0 : World),
      ((Surface.new backend ifc t pid w0).2.since
        (Surface.destroy (Surface.new backend ifc t pid w0).1
          (Surface.new backend ifc t pid w0).2).2).filter Effect.isCallbackDestroy = [] ∧
      ((Surface.new backend ifc t pid w0).2.since
        (Surface.destroy (Surface.new backend ifc t pid w0).1
          (Surface.new backend ifc t pid w0).2).2).getLast? =
        some (.surfaceDestroy w0.nextId)) := by
  constructor
  · cases ht : s.type <;> cases hi : s.m_iviSurface <;> cases hx : s.m_xdgSurface <;>
      cases hs : s.m_shellSurface <;> cases hc : s.m_callback <;> cases hm : s.m_surface <;>
      simp [Surface.destroy, ht, hi, hx, hs, hc, hm, World.emitIf, World.emit]
  · intro backend ifc t pid w0
    cases t <;> cases hx : ifc.xdg <;> cases hs : ifc.shell <;>
      cases hi : ifc.ivi_application <;>
      simp [Surface.destroy, Surface.new, Surface.newShellRole, Surface.newIviRole, hx, hs, hi,
        World.since, World.emitIf, World.emit, World.fresh, Effect.isCallbackDestroy]

/-- C13 on a Surface with every global advertised that was constructed and never
committed: the whole teardown. -/
theorem Surface_destroy_order_witness :
    ((Surface.new (some 7) sampleInterfaces .OnScreen 100 ⟨10, []⟩).2.since
      (Surface.destroy (Surface.new (some 7) sampleInterfaces .OnScreen 100 ⟨10, []⟩).1
        (Surface.new (some 7) sampleInterfaces .OnScreen 100 ⟨10, []⟩).2).2 =
      [.unregisterInputClient (some 10), .iviSurfaceDestroy 12, .xdgSurfaceDestroy 11,
       .surfaceDestroy 10]) ∧
    ((Surface.new (some 7) sampleInterfaces .OnScreen 100 ⟨10, []⟩).2.since
      (Surface.destroy (Surface.new (some 7) sampleInterfaces .OnScreen 100 ⟨10, []⟩).1
        (Surface.new (some 7) sampleInterfaces .OnScreen 100 ⟨10, []⟩).2).2).getLast? =
      some (.surfaceDestroy 10) :=
  ⟨by decide,
   ((Surface_destroy_order (Surface.new (some 7) sampleInterfaces .OnScreen 100 ⟨10, []⟩).1
      (Surface.new (some 7) sampleInterfaces .OnScreen 100 ⟨10, []⟩).2).2
      (some 7) sampleInterfaces .OnScreen 100 ⟨10, []⟩).2⟩

/-! ## Frame callbacks of a Popup -/

/-- C14 at `attachBuffer(buffer)`, `attachBuffer(null)`, destruction, on a Popup
built with every global advertised (surface 20, xdg popup 21).  The first call
requests callback 22; the second destroys it and leaves `m_frameCallback`
pointing at it, with no callback live; the destructor then destroys callback 22
a second time.  A further `attachBuffer(null)` in place of the destructor
destroys it a second time as well. -/
theorem Popup_attachBuffer_null_double_destroy :
    (Popup.run (Popup.new 9 (some 3) sampleInterfaces 42 5 5 ⟨20, []⟩)
        [.attachBuffer (some sampleBuffer), .attachBuffer none]).map
      (fun pw => (pw.1.m_frameCallback, liveCallbacks pw.2.trace, destroyCount 22 pw.2.trace)) =
      some (some 22, [], 1) ∧
    (Popup.runThenDestroy (Popup.new 9 (some 3) sampleInterfaces 42 5 5 ⟨20, []⟩)
        [.attachBuffer (some sampleBuffer), .attachBuffer none]).map (fun t => t.drop 4) =
      some [.surfaceFrame (some 20) 22, .callbackAddListener 22,
            .surfaceAttach (some 20) (some 11) 0 0, .surfaceDamage (some 20) 0 0 4 4,
            .surfaceCommit (some 20),
            .callbackDestroy 22, .surfaceAttach (some 20) none 0 0, .surfaceCommit (some 20),
            .xdgPopupDestroy 21, .unregisterInputClient (some 20), .surfaceDestroy 20,
            .callbackDestroy 22] ∧
    (Popup.runThenDestroy (Popup.new 9 (some 3) sampleInterfaces 42 5 5 ⟨20, []⟩)
        [.attachBuffer (some sampleBuffer), .attachBuffer none]).map (destroyCount 22) =
      some 2 ∧
    (Popup.run (Popup.new 9 (some 3) sampleInterfaces 42 5 5 ⟨20, []⟩)
        [.attachBuffer (some sampleBuffer), .attachBuffer none, .attachBuffer none]).map
      (fun pw => destroyCount 22 pw.2.trace) = some 2 := by
  decide

end NC.Wayland
